import Mathlib

/-!
Liblinphone: participant devices and the video stream controller.

A shallow embedding of

* `src/conference/participant-device.cpp` (class `ParticipantDevice`), and
* `src/conference/session/videostream.cpp` (class `MS2VideoStream`),

followed by theorems about the embedded functions.

Conventions of the embedding.

* A C++ member function that mutates `this` becomes a Lean function that takes
  the object and returns the new object (paired with the C++ return value when
  there is one).
* `std::map<K, V>` is a finite partial function `K → Option V`.
* A C++ exception is a value of `Except`.
* Calls into the media engine (mediastreamer2), the listener and the base class
  are recorded, in program order, in a trace carried by the state.
* Log statements (`lInfo`, `lWarning`, `lError`) have no effect on the state and
  are not recorded.
-/

namespace Linphone

/-! ## Part 1. `ParticipantDevice` -/

/-- Modelled from the spec: the enum `LinphoneMediaDirection` is declared in
`linphone/types.h`, which is not among the sources; the spec lists the values
Inactive, SendOnly, RecvOnly, SendRecv. -/
inductive LinphoneMediaDirection where
  | Inactive
  | SendOnly
  | RecvOnly
  | SendRecv
  deriving DecidableEq, Repr

/-- Modelled from the spec: the enum `ConferenceMediaCapabilities` is declared in
`participant-device.h`, which is not among the sources; the source file names
the enumerators `Audio`, `Video` and `Text` and the spec lists exactly these. -/
inductive ConferenceMediaCapabilities where
  | Audio
  | Video
  | Text
  deriving DecidableEq, Repr

/-- The exception thrown by `std::map::at` on a missing key. -/
inductive StdException where
  | out_of_range
  deriving DecidableEq, Repr

/-- The member `mediaCapabilities`, a
`std::map<ConferenceMediaCapabilities, LinphoneMediaDirection>`. -/
abbrev MediaCapabilities := ConferenceMediaCapabilities → Option LinphoneMediaDirection

/-- The empty map. -/
def MediaCapabilities.empty : MediaCapabilities := fun _ => none

/-- Lookup `std::map::find`: `none` stands for the end iterator. -/
def MediaCapabilities.find (m : MediaCapabilities) (capIdx : ConferenceMediaCapabilities) :
    Option LinphoneMediaDirection :=
  m capIdx

/-- Checked lookup `std::map::at`: throws `std::out_of_range` on a missing key. -/
def MediaCapabilities.atKey (m : MediaCapabilities) (capIdx : ConferenceMediaCapabilities) :
    Except StdException LinphoneMediaDirection :=
  match m capIdx with
  | some d => .ok d
  | none => .error .out_of_range

/-- Assignment `m[capIdx] = direction`. -/
def MediaCapabilities.assign (m : MediaCapabilities) (capIdx : ConferenceMediaCapabilities)
    (direction : LinphoneMediaDirection) : MediaCapabilities :=
  fun k => if k = capIdx then some direction else m k

/-- The three flags `updateMedia` reads from a `MediaSessionParams`. -/
structure MediaSessionParams where
  audioEnabled : Bool
  videoEnabled : Bool
  realtimeTextEnabled : Bool
  deriving DecidableEq, Repr

/-- What `CallSession::getRemoteParams()` points to: a `CallSessionParams` that is
either a plain one or a `MediaSessionParams`. -/
inductive CallSessionParams where
  | plain
  | media (p : MediaSessionParams)
  deriving DecidableEq, Repr

/-- The cast `dynamic_cast<const MediaSessionParams*>(p)`: null for a null pointer and
for an object that is not a `MediaSessionParams`. -/
def dynamic_cast_MediaSessionParams : Option CallSessionParams → Option MediaSessionParams
  | some (.media p) => some p
  | some .plain => none
  | none => none

/-- The part of a `CallSession` that `ParticipantDevice` reads. -/
structure CallSession where
  getRemoteParams : Option CallSessionParams
  deriving DecidableEq, Repr

/-- The fields of `ParticipantDevice` that the embedded member functions touch.
`mParticipant` is the back pointer (an opaque identifier, `none` for null),
`mSession` the shared pointer to the session (`none` for null). -/
structure ParticipantDevice where
  mParticipant : Option Nat
  mGruu : String
  mName : String
  mTimeOfJoining : Nat
  mSession : Option CallSession
  mediaCapabilities : MediaCapabilities

/-- Member `ParticipantDevice::getMediaDirection`, with its `try`/`catch`. -/
def ParticipantDevice.getMediaDirection (dev : ParticipantDevice)
    (capIdx : ConferenceMediaCapabilities) : Except StdException LinphoneMediaDirection :=
  match dev.mediaCapabilities.atKey capIdx with
  | .ok d => .ok d
  | .error .out_of_range => .ok .Inactive

/-- Member `ParticipantDevice::getAudioDirection`. -/
def ParticipantDevice.getAudioDirection (dev : ParticipantDevice) :
    Except StdException LinphoneMediaDirection :=
  dev.getMediaDirection .Audio

/-- Member `ParticipantDevice::getVideoDirection`. -/
def ParticipantDevice.getVideoDirection (dev : ParticipantDevice) :
    Except StdException LinphoneMediaDirection :=
  dev.getMediaDirection .Video

/-- Member `ParticipantDevice::getTextDirection`. -/
def ParticipantDevice.getTextDirection (dev : ParticipantDevice) :
    Except StdException LinphoneMediaDirection :=
  dev.getMediaDirection .Text

/-- Member `ParticipantDevice::setMediaDirection`: the returned flag and the device
afterwards. -/
def ParticipantDevice.setMediaDirection (dev : ParticipantDevice)
    (direction : LinphoneMediaDirection) (capIdx : ConferenceMediaCapabilities) :
    Bool × ParticipantDevice :=
  match dev.mediaCapabilities.find capIdx with
  | none =>
    -- `!idxFound`
    (true, { dev with mediaCapabilities := dev.mediaCapabilities.assign capIdx direction })
  | some stored =>
    -- `idxFound`, so `mediaCapabilities[capIdx]` reads the stored value
    if stored ≠ direction then
      (true, { dev with mediaCapabilities := dev.mediaCapabilities.assign capIdx direction })
    else
      (false, dev)

/-- Member `ParticipantDevice::setAudioDirection`. -/
def ParticipantDevice.setAudioDirection (dev : ParticipantDevice)
    (direction : LinphoneMediaDirection) : Bool × ParticipantDevice :=
  dev.setMediaDirection direction .Audio

/-- Member `ParticipantDevice::setVideoDirection`. -/
def ParticipantDevice.setVideoDirection (dev : ParticipantDevice)
    (direction : LinphoneMediaDirection) : Bool × ParticipantDevice :=
  dev.setMediaDirection direction .Video

/-- Member `ParticipantDevice::setTextDirection`. -/
def ParticipantDevice.setTextDirection (dev : ParticipantDevice)
    (direction : LinphoneMediaDirection) : Bool × ParticipantDevice :=
  dev.setMediaDirection direction .Text

/-- The body shared by both constructors: the three `setMediaDirection` calls on
the freshly initialised members. -/
def ParticipantDevice.initMedia (dev : ParticipantDevice) : ParticipantDevice :=
  let d1 := (dev.setMediaDirection .Inactive .Audio).2
  let d2 := (d1.setMediaDirection .Inactive .Video).2
  (d2.setMediaDirection .Inactive .Text).2

/-- The default constructor `ParticipantDevice::ParticipantDevice ()`; `now` is the
value of `time(nullptr)`. -/
def ParticipantDevice.new (now : Nat) : ParticipantDevice :=
  ParticipantDevice.initMedia
    { mParticipant := none, mGruu := "", mName := "", mTimeOfJoining := now,
      mSession := none, mediaCapabilities := MediaCapabilities.empty }

/-- The constructor `ParticipantDevice::ParticipantDevice (participant, gruu, name)`;
`now` is the value of `time(nullptr)`. -/
def ParticipantDevice.newWith (participant : Option Nat) (gruu : String) (name : String)
    (now : Nat) : ParticipantDevice :=
  ParticipantDevice.initMedia
    { mParticipant := participant, mGruu := gruu, mName := name, mTimeOfJoining := now,
      mSession := none, mediaCapabilities := MediaCapabilities.empty }

/-- Member `ParticipantDevice::updateMedia`: the returned flag `mediaChanged` and the
device afterwards. -/
def ParticipantDevice.updateMedia (dev : ParticipantDevice) : Bool × ParticipantDevice :=
  let mediaChanged := false
  match dev.mSession with
  | some session =>
    match dynamic_cast_MediaSessionParams session.getRemoteParams with
    | some currentParams =>
      let a := dev.setAudioDirection
        (if currentParams.audioEnabled then .SendRecv else .Inactive)
      let v := a.2.setVideoDirection
        (if currentParams.videoEnabled then .SendRecv else .Inactive)
      let t := v.2.setTextDirection
        (if currentParams.realtimeTextEnabled then .SendRecv else .Inactive)
      (((mediaChanged || a.1) || v.1) || t.1, t.2)
    | none =>
      let t := dev.setTextDirection .SendRecv
      (mediaChanged || t.1, t.2)
  | none =>
    let a := dev.setAudioDirection .Inactive
    let v := a.2.setVideoDirection .Inactive
    let t := v.2.setTextDirection .Inactive
    (((mediaChanged || a.1) || v.1) || t.1, t.2)

/-- Member `ParticipantDevice::setSession`. -/
def ParticipantDevice.setSession (dev : ParticipantDevice) (session : Option CallSession) :
    ParticipantDevice :=
  ({ dev with mSession := session }).updateMedia.2

/-- The devices that can arise: built by one of the two constructors, then driven
by the public operations `setMediaDirection`, `setSession`, `updateMedia`. The
attached session is a shared object, so its remote parameters may change
between two calls (`sessionChanged`). -/
inductive Reachable : ParticipantDevice → Prop where
  | created (now : Nat) : Reachable (ParticipantDevice.new now)
  | createdWith (participant : Option Nat) (gruu name : String) (now : Nat) :
      Reachable (ParticipantDevice.newWith participant gruu name now)
  | afterSetMediaDirection (dev : ParticipantDevice) (d : LinphoneMediaDirection)
      (k : ConferenceMediaCapabilities) :
      Reachable dev → Reachable (dev.setMediaDirection d k).2
  | afterSetSession (dev : ParticipantDevice) (session : Option CallSession) :
      Reachable dev → Reachable (dev.setSession session)
  | afterUpdateMedia (dev : ParticipantDevice) :
      Reachable dev → Reachable dev.updateMedia.2
  | sessionChanged (dev : ParticipantDevice) (session : CallSession) :
      Reachable dev → dev.mSession.isSome = true →
      Reachable { dev with mSession := some session }

/-! ## Part 2. `MS2VideoStream` -/

/-- Modelled from the spec: the enum `SalStreamDir` is declared in `sal/sal.h`,
which is not among the sources; the source file names `SalStreamSendRecv`,
`SalStreamSendOnly`, `SalStreamRecvOnly` and `SalStreamInactive`. -/
inductive SalStreamDir where
  | SendRecv
  | SendOnly
  | RecvOnly
  | Inactive
  deriving DecidableEq, Repr

/-- Modelled from the spec: the enum `SalMulticastRole` is declared in `sal/sal.h`,
which is not among the sources; the spec lists None, Sender and Receiver and the
source file names `SalMulticastReceiver`. -/
inductive SalMulticastRole where
  | None
  | Sender
  | Receiver
  deriving DecidableEq, Repr

/-- The enum `MediaStreamDir` of the media engine; the source file names
`MediaStreamSendRecv`, `MediaStreamSendOnly` and `MediaStreamRecvOnly`. -/
inductive MediaStreamDir where
  | Inactive
  | SendOnly
  | RecvOnly
  | SendRecv
  deriving DecidableEq, Repr

/-- The enum `CallSession::State`, declared outside the sources: the two
enumerators the source file names, and `Other code` for each remaining one. -/
inductive CallSessionState where
  | Pausing
  | Paused
  | Other (code : Nat)
  deriving DecidableEq, Repr

/-- Modelled from the spec: the state of a stream controller (`Stream::getState()`),
declared in `streams.h`, which is not among the sources; the spec lists Stopped,
Preparing and Running. -/
inductive StreamState where
  | Stopped
  | Preparing
  | Running
  deriving DecidableEq, Repr

/-- The enum `LinphoneMediaEncryption`, declared outside the sources: the enumerator
the source file names, and `Other code` for each remaining one. -/
inductive LinphoneMediaEncryption where
  | ZRTP
  | Other (code : Nat)
  deriving DecidableEq, Repr

/-- A payload type of an RTP profile. -/
structure PayloadType where
  mime_type : String
  deriving DecidableEq, Repr

/-- An `RtpProfile`: the table of payload types, indexed by payload number. -/
structure RtpProfile where
  payload : List (Option PayloadType)
  deriving DecidableEq, Repr

/-- The accessor `rtp_profile_get_payload`: null for an index outside the table. -/
def rtp_profile_get_payload (prof : RtpProfile) (idx : Int) : Option PayloadType :=
  if idx < 0 then none else (prof.payload[idx.toNat]?).join

/-- The fields of `SalStreamDescription` that `render` reads. An address is a C
string; the empty string is the one whose first character is the terminator. -/
structure SalStreamDescription where
  dir : SalStreamDir
  rtp_port : Int
  rtcp_port : Int
  rtp_addr : String
  rtcp_addr : String
  multicast_role : SalMulticastRole
  haveZrtpHash : Nat
  zrtphash : String
  deriving DecidableEq, Repr

/-- The field of `SalMediaDescription` that `render` reads. -/
structure SalMediaDescription where
  addr : String
  deriving DecidableEq, Repr

/-- The fields of `OfferAnswerContext` that `render` reads. -/
structure OfferAnswerContext where
  resultMediaDescription : SalMediaDescription
  resultStreamDescription : SalStreamDescription
  remoteStreamDescription : SalStreamDescription
  deriving DecidableEq, Repr

/-- The enum `MSResourceType` of the media engine, as far as `render` uses it. -/
inductive MSResourceType where
  | MSResourceDefault
  | MSResourceRtp
  | MSResourceCamera
  deriving DecidableEq, Repr

/-- The fields of `MSMediaStreamIO` that `render` fills in. Handles are opaque
numbers, `none` is the null pointer. -/
structure MSMediaStreamIo where
  input_type : MSResourceType
  input_session : Option Nat
  input_camera : Option Nat
  output_type : MSResourceType
  output_session : Option Nat
  deriving DecidableEq, Repr

/-- The value `MS_MEDIA_STREAM_IO_INITIALIZER`. -/
def MS_MEDIA_STREAM_IO_INITIALIZER : MSMediaStreamIo :=
  { input_type := .MSResourceDefault, input_session := none, input_camera := none,
    output_type := .MSResourceDefault, output_session := none }

/-- The calls that leave the controller: into the media engine, into the base class
`MS2Stream`, and to the session listener. `stream` is the value of `mStream` that
is passed (`none` is the null pointer). -/
inductive Call where
  | video_preview_stop_reuse_source (preview : Nat)
  | video_preview_stop (preview : Nat)
  | MS2Stream_stop
  | video_stream_stop (stream : Option Nat)
  | video_stream_set_preview_size (stream : Option Nat) (width height : Int)
  | video_stream_set_fps (stream : Option Nat) (fps : Nat)
  | staticimage_webcam_fps_optimization (stream : Option Nat) (value : Bool)
  | video_stream_set_sent_video_size (stream : Option Nat) (width height : Int)
  | video_stream_enable_self_view (stream : Option Nat) (value : Bool)
  | video_stream_set_native_window_id (stream : Option Nat) (window : Nat)
  | video_stream_set_native_preview_window_id (stream : Option Nat) (window : Nat)
  | video_stream_use_preview_video_window (stream : Option Nat) (value : Bool)
  | MS2Stream_render
  | video_stream_set_direction (stream : Option Nat) (dir : MediaStreamDir)
  | video_stream_set_device_rotation (stream : Option Nat) (rotation : Int)
  | video_stream_set_freeze_on_error (stream : Option Nat) (value : Bool)
  | video_stream_use_video_preset (stream : Option Nat) (preset : Option String)
  | video_stream_start_with_source (stream : Option Nat) (profile : RtpProfile)
      (rtpAddr : String) (rtpPort : Int) (rtcpAddr : String) (rtcpPort : Int)
      (usedPt : Int) (cam : Option Nat) (source : Nat)
  | createRtpIoSession
  | video_stream_start_from_io (stream : Option Nat) (profile : RtpProfile)
      (rtpAddr : String) (rtpPort : Int) (rtcpAddr : String) (rtcpPort : Int)
      (usedPt : Int) (io : MSMediaStreamIo)
  | onResetFirstVideoFrameDecoded
  | onFirstVideoFrameDecoded
  | video_stream_start_zrtp (stream : Option Nat)
  | ms_zrtp_setPeerHelloHash (hash : String)
  | video_stream_enable_retransmission_on_nack (stream : Option Nat) (value : Bool)
  | ms_filter_destroy (source : Nat)
  | video_stream_send_vfu (stream : Option Nat)
  | video_stream_enable_zrtp (stream : Option Nat) (audio : Nat)
  deriving DecidableEq, Repr

/-- The member `video_conf` of the core. -/
structure VideoConf where
  capture : Bool
  display : Bool
  reuse_preview_source : Bool
  selfview : Bool
  preview_vsize_width : Int
  preview_vsize_height : Int
  device : Option Nat
  deriving DecidableEq, Repr

/-- The entries of section `video` of the core configuration that `render` reads;
`none` is an entry that is not set. -/
structure VideoSection where
  nowebcam_uses_normal_fps : Option Int
  freeze_on_error : Option Int
  preset : Option String
  rtp_io_enabled : Option Bool
  deriving DecidableEq, Repr

/-- The readers `lp_config_get_int`, `lp_config_get_string` and
`linphone_config_get_bool`, applied to an entry and the default. -/
def lp_config_get {α : Type} (entry : Option α) (dflt : α) : α :=
  entry.getD dflt

/-- The part of `LinphoneCore` that the controller reads and writes. -/
structure LinphoneCore where
  previewstream : Option Nat
  video_conf : VideoConf
  config : VideoSection
  video_window_id : Option Nat
  preview_window_id : Option Nat
  use_preview_window : Bool
  device_rotation : Int
  preferred_framerate : Nat
  preferred_video_definition_width : Nat
  preferred_video_definition_height : Nat
  rtcp_enabled : Bool
  retransmission_on_nack_enabled : Bool
  zrtp_supported : Bool
  deriving DecidableEq, Repr

/-- The record `getCurrentParams()` of the session, as far as the controller writes it. -/
structure CurrentParams where
  usedAudioCodec : Option PayloadType
  usedVideoCodec : Option PayloadType
  videoEnabled : Bool
  deriving DecidableEq, Repr

/-- The part of the media session that the controller reads and writes:
`listener` tells whether `getCallSessionListener()` is non-null,
`mediaEncryption` is `getParams()->getMediaEncryption()`, and `log_video_enabled`
is `getLog()->video_enabled`. -/
structure MediaSessionPrivate where
  listener : Bool
  currentParams : CurrentParams
  mediaEncryption : LinphoneMediaEncryption
  encryptionMandatory : Bool
  log_video_enabled : Bool
  deriving DecidableEq, Repr

/-- The main audio stream of the group as the video controller sees it: the
handle of its engine stream and the answer of `isEncrypted()`. -/
structure MainAudioStream where
  mediaStream : Nat
  isEncrypted : Bool
  deriving DecidableEq, Repr

/-- The controller `MS2VideoStream` with the objects it reaches: its own members
(`mStream`, `mNativeWindowId`, `mCameraEnabled`, `mVideoMuted`, and `mState` of
the base class), the core, the session, the result of
`getGroup().lookupMainStream(SalAudio)`, and the trace of calls issued so far. -/
structure MS2VideoStream where
  mStream : Option Nat
  mNativeWindowId : Option Nat
  mCameraEnabled : Bool
  mVideoMuted : Bool
  mState : StreamState
  core : LinphoneCore
  session : MediaSessionPrivate
  mainAudioStream : Option MainAudioStream
  calls : List Call
  deriving DecidableEq, Repr

/-- The answers of the functions that `render` calls and whose code is outside the
sources: `ms_is_multicast`, `MS2Stream::makeProfile` (the profile and the value
left in `usedPt`), `video_preview_stop_reuse_source`, `createRtpIoSession`, the
camera `ms_web_cam_manager_get_cam` finds for the static picture,
`ms_zrtp_setPeerHelloHash`, and whether `VIDEO_ENABLED` is defined. -/
structure Environment where
  VIDEO_ENABLED : Bool
  ms_is_multicast : String → Bool
  makeProfile : SalMediaDescription → SalStreamDescription → RtpProfile × Int
  video_preview_stop_reuse_source : Nat → Option Nat
  createRtpIoSession : Option Nat
  staticImageCam : Option Nat
  ms_zrtp_setPeerHelloHash : String → Int

/-- Append one call to the trace. -/
def MS2VideoStream.call (s : MS2VideoStream) (c : Call) : MS2VideoStream :=
  { s with calls := s.calls ++ [c] }

/-- Modelled from the spec: the base-class member `MS2Stream::stop` is defined in
`ms2-stream.cpp`, which is not among the sources; the spec says that `stop`
transitions the controller to Stopped. The call is recorded. -/
def MS2Stream.stop (s : MS2VideoStream) : MS2VideoStream :=
  { s.call .MS2Stream_stop with mState := .Stopped }

/-- Modelled from the spec: the base-class member `MS2Stream::render` is defined in
`ms2-stream.cpp`, which is not among the sources; the spec says that a render
that starts the stream transitions the controller to Running. The call is
recorded. -/
def MS2Stream.render (s : MS2VideoStream) (_ctx : OfferAnswerContext)
    (_targetState : CallSessionState) : MS2VideoStream :=
  { s.call .MS2Stream_render with mState := .Running }

/-- Member `MS2VideoStream::getState` of the base class. -/
def MS2VideoStream.getState (s : MS2VideoStream) : StreamState :=
  s.mState

/-- The setter `getCurrentParams()->getPrivate()->setUsedVideoCodec(pt)`. -/
def MS2VideoStream.setUsedVideoCodec (s : MS2VideoStream) (pt : Option PayloadType) :
    MS2VideoStream :=
  { s with session :=
      { s.session with currentParams := { s.session.currentParams with usedVideoCodec := pt } } }

/-- The setter `getCurrentParams()->getPrivate()->setUsedAudioCodec(pt)`. -/
def MS2VideoStream.setUsedAudioCodec (s : MS2VideoStream) (pt : Option PayloadType) :
    MS2VideoStream :=
  { s with session :=
      { s.session with currentParams := { s.session.currentParams with usedAudioCodec := pt } } }

/-- The setter `getCurrentParams()->enableVideo(value)`. -/
def MS2VideoStream.enableVideo (s : MS2VideoStream) (value : Bool) : MS2VideoStream :=
  { s with session :=
      { s.session with currentParams := { s.session.currentParams with videoEnabled := value } } }

/-- Member `MS2VideoStream::stop`. -/
def MS2VideoStream.stop (s : MS2VideoStream) : MS2VideoStream :=
  let s := MS2Stream.stop s
  let s := s.call (.video_stream_stop s.mStream)
  let s := { s with mStream := none }
  s.setUsedAudioCodec none

/-- Member `MS2VideoStream::getVideoDevice`. -/
def MS2VideoStream.getVideoDevice (env : Environment) (s : MS2VideoStream)
    (targetState : CallSessionState) : Option Nat :=
  let paused : Bool := targetState = .Pausing || targetState = .Paused
  if paused || s.mVideoMuted || !s.mCameraEnabled then
    if env.VIDEO_ENABLED then env.staticImageCam else none
  else
    s.core.video_conf.device

/-- Member `MS2VideoStream::prepare`. -/
def MS2VideoStream.prepare (s : MS2VideoStream) : MS2VideoStream :=
  if s.core.zrtp_supported then
    match s.mainAudioStream with
    | some msa => s.call (.video_stream_enable_zrtp s.mStream msa.mediaStream)
    | none => s
  else
    s

/-- Lines 165-172 of `render` ("Shutdown preview"): the filter kept in `source` and
the controller afterwards. -/
def MS2VideoStream.shutdownPreview (env : Environment) (s : MS2VideoStream) :
    Option Nat × MS2VideoStream :=
  match s.core.previewstream with
  | some preview =>
    let r : Option Nat × MS2VideoStream :=
      if s.core.video_conf.reuse_preview_source then
        (env.video_preview_stop_reuse_source preview,
          s.call (.video_preview_stop_reuse_source preview))
      else
        (none, s.call (.video_preview_stop preview))
    (r.1, { r.2 with core := { r.2.core with previewstream := none } })
  | none => (none, s)

/-- Lines 190-207 of `render`: the settings passed to the engine stream. Line 194,
`mStream->staticimage_webcam_fps_optimization = false`, is a store through
`mStream`; it is recorded in the trace like the calls around it. With a null
`mStream` the source faults at that store, which the trace does not show. What
is proved about the calls a `render` going past this line issues is therefore
stated for a controller that holds an engine stream; what is proved about the
calls a `render` never issues holds for every controller, since a fault only
shortens the trace. -/
def MS2VideoStream.applySettings (s : MS2VideoStream) : MS2VideoStream :=
  let s :=
    if s.core.video_conf.preview_vsize_width ≠ 0 then
      s.call (.video_stream_set_preview_size s.mStream
        s.core.video_conf.preview_vsize_width s.core.video_conf.preview_vsize_height)
    else s
  let s := s.call (.video_stream_set_fps s.mStream s.core.preferred_framerate)
  let s :=
    if lp_config_get s.core.config.nowebcam_uses_normal_fps 0 ≠ 0 then
      s.call (.staticimage_webcam_fps_optimization s.mStream false)
    else s
  let s := s.call (.video_stream_set_sent_video_size s.mStream
    (s.core.preferred_video_definition_width : Int)
    (s.core.preferred_video_definition_height : Int))
  let s := s.call (.video_stream_enable_self_view s.mStream s.core.video_conf.selfview)
  let s :=
    match s.mNativeWindowId with
    | some w => s.call (.video_stream_set_native_window_id s.mStream w)
    | none =>
      match s.core.video_window_id with
      | some w => s.call (.video_stream_set_native_window_id s.mStream w)
      | none => s
  let s :=
    match s.core.preview_window_id with
    | some w => s.call (.video_stream_set_native_preview_window_id s.mStream w)
    | none => s
  s.call (.video_stream_use_preview_video_window s.mStream s.core.use_preview_window)

/-- Lines 211-233 of `render`: the value left in `dir`, or `none` when the last
`else` branch is taken, the one that calls `stop()` and returns. -/
def MS2VideoStream.renderDir (isMulticast : Bool) (vstream : SalStreamDescription)
    (video_conf : VideoConf) : Option MediaStreamDir :=
  if isMulticast then
    if vstream.multicast_role = .Receiver then some .RecvOnly
    else some .SendOnly
  else if vstream.dir = .SendOnly ∧ video_conf.capture = true then some .SendOnly
  else if vstream.dir = .RecvOnly ∧ video_conf.display = true then some .RecvOnly
  else if vstream.dir = .SendRecv then
    if video_conf.display = true ∧ video_conf.capture = true then some .SendRecv
    else if video_conf.display = true then some .RecvOnly
    else some .SendOnly
  else none

/-- The RTCP port passed to the engine: the descriptor's, or the RTP port plus one. -/
def rtcpPortOf (vstream : SalStreamDescription) : Int :=
  if vstream.rtcp_port ≠ 0 then vstream.rtcp_port else vstream.rtp_port + 1

/-- Lines 243-269 of `render`: the start of the engine stream. Returns the flag
`reusedPreview` and the controller afterwards. -/
def MS2VideoStream.startEngine (env : Environment) (s : MS2VideoStream)
    (vstream : SalStreamDescription) (source : Option Nat) (videoProfile : RtpProfile)
    (usedPt : Int) (rtpAddr rtcpAddr : String) (isMulticast : Bool) (cam : Option Nat) :
    Bool × MS2VideoStream :=
  match s.core.video_conf.reuse_preview_source, source with
  | true, some src =>
    (true, s.call (.video_stream_start_with_source s.mStream videoProfile rtpAddr
      vstream.rtp_port rtcpAddr
      (if s.core.rtcp_enabled then rtcpPortOf vstream else 0) usedPt cam src))
  | _, _ =>
    let rtcpPort : Int :=
      if s.core.rtcp_enabled && !isMulticast then rtcpPortOf vstream else 0
    if lp_config_get s.core.config.rtp_io_enabled false then
      let s := s.call .createRtpIoSession
      match env.createRtpIoSession with
      | some session =>
        let io : MSMediaStreamIo :=
          { MS_MEDIA_STREAM_IO_INITIALIZER with
            input_type := .MSResourceRtp, output_type := .MSResourceRtp,
            input_session := some session, output_session := some session }
        (false, s.call (.video_stream_start_from_io s.mStream videoProfile rtpAddr
          vstream.rtp_port rtcpAddr rtcpPort usedPt io))
      | none => (false, s)
    else
      let io : MSMediaStreamIo :=
        { MS_MEDIA_STREAM_IO_INITIALIZER with
          input_type := .MSResourceCamera, input_camera := cam,
          output_type := .MSResourceDefault }
      (false, s.call (.video_stream_start_from_io s.mStream videoProfile rtpAddr
        vstream.rtp_port rtcpAddr rtcpPort usedPt io))

/-- Lines 273-286 of `render`: the start of the ZRTP engine. -/
def MS2VideoStream.startZrtp (env : Environment) (s : MS2VideoStream)
    (remoteStream : SalStreamDescription) : MS2VideoStream :=
  if s.session.mediaEncryption = .ZRTP ∨ remoteStream.haveZrtpHash = 1 then
    match s.mainAudioStream with
    | some audioStream =>
      if audioStream.isEncrypted then
        let s := s.call (.video_stream_start_zrtp s.mStream)
        if remoteStream.haveZrtpHash = 1 then
          let s := s.call (.ms_zrtp_setPeerHelloHash remoteStream.zrtphash)
          let retval := env.ms_zrtp_setPeerHelloHash remoteStream.zrtphash
          -- a mismatch is only logged
          if retval ≠ 0 then s else s
        else s
      else s
    | none => s
  else s

/-- Line 208 of `render`: the stream's RTP address, or the address of the media
description when the stream has none. -/
def OfferAnswerContext.rtpAddr (ctx : OfferAnswerContext) : String :=
  if ctx.resultStreamDescription.rtp_addr ≠ "" then ctx.resultStreamDescription.rtp_addr
  else ctx.resultMediaDescription.addr

/-- Line 209 of `render`: the stream's RTCP address, or the address of the media
description when the stream has none. -/
def OfferAnswerContext.rtcpAddr (ctx : OfferAnswerContext) : String :=
  if ctx.resultStreamDescription.rtcp_addr ≠ "" then ctx.resultStreamDescription.rtcp_addr
  else ctx.resultMediaDescription.addr

/-- Lines 235-242 of `render`: the base-class render and the settings that follow
it, among them the direction. -/
def MS2VideoStream.configureStream (s : MS2VideoStream) (ctx : OfferAnswerContext)
    (targetState : CallSessionState) (dir : MediaStreamDir) : MS2VideoStream :=
  let s := MS2Stream.render s ctx targetState
  let s := { s with session := { s.session with log_video_enabled := true } }
  let s := s.call (.video_stream_set_direction s.mStream dir)
  let s := s.call (.video_stream_set_device_rotation s.mStream s.core.device_rotation)
  let s := s.call (.video_stream_set_freeze_on_error s.mStream
    (decide (lp_config_get s.core.config.freeze_on_error 1 ≠ 0)))
  s.call (.video_stream_use_video_preset s.mStream s.core.config.preset)

/-- Lines 271-296 of `render`: the notification of the listener, the ZRTP start,
the retransmission setting and the destruction of a source that was not reused. -/
def MS2VideoStream.finishRender (env : Environment) (s : MS2VideoStream)
    (ctx : OfferAnswerContext) (listener : Bool) (source : Option Nat)
    (reusedPreview : Bool) : MS2VideoStream :=
  let s := if listener then s.call .onResetFirstVideoFrameDecoded else s
  let s := s.startZrtp env ctx.remoteStreamDescription
  let s :=
    if s.core.retransmission_on_nack_enabled then
      s.call (.video_stream_enable_retransmission_on_nack s.mStream true)
    else s
  match reusedPreview, source with
  | false, some src => s.call (.ms_filter_destroy src)
  | _, _ => s

/-- Lines 234-296 of `render`: what follows once `dir` is set. -/
def MS2VideoStream.renderStart (env : Environment) (s : MS2VideoStream)
    (ctx : OfferAnswerContext) (targetState : CallSessionState) (listener : Bool)
    (source : Option Nat) (videoProfile : RtpProfile) (usedPt : Int)
    (rtpAddr rtcpAddr : String) (isMulticast : Bool) (dir : MediaStreamDir) :
    MS2VideoStream :=
  let cam := s.getVideoDevice env targetState
  let s := s.configureStream ctx targetState dir
  let started := s.startEngine env ctx.resultStreamDescription source videoProfile usedPt
    rtpAddr rtcpAddr isMulticast cam
  started.2.finishRender env ctx listener source started.1

/-- Member `MS2VideoStream::render`. -/
def MS2VideoStream.render (env : Environment) (s : MS2VideoStream)
    (ctx : OfferAnswerContext) (targetState : CallSessionState) : MS2VideoStream :=
  let listener := s.session.listener
  let preview := s.shutdownPreview env
  let source := preview.1
  let s := preview.2
  let vstream := ctx.resultStreamDescription
  if vstream.dir = .Inactive ∨ vstream.rtp_port = 0 then
    s.stop
  else
    let made := env.makeProfile ctx.resultMediaDescription vstream
    let videoProfile := made.1
    let usedPt := made.2
    -- no `return` follows this `stop()`
    let s := if usedPt = -1 then s.stop else s
    let s := s.setUsedVideoCodec (rtp_profile_get_payload videoProfile usedPt)
    let s := s.enableVideo true
    let s := s.applySettings
    let rtpAddr := ctx.rtpAddr
    let rtcpAddr := ctx.rtcpAddr
    let isMulticast := env.ms_is_multicast rtpAddr
    match MS2VideoStream.renderDir isMulticast vstream s.core.video_conf with
    | some dir =>
      s.renderStart env ctx targetState listener source videoProfile usedPt rtpAddr rtcpAddr
        isMulticast dir
    | none => s.stop

/-- Member `MS2VideoStream::zrtpStarted`. -/
def MS2VideoStream.zrtpStarted (env : Environment) (s : MS2VideoStream) : MS2VideoStream :=
  if env.VIDEO_ENABLED then
    if s.getState = .Running then
      let s := s.call (.video_stream_start_zrtp s.mStream)
      if s.session.encryptionMandatory then
        s.call (.video_stream_send_vfu s.mStream)
      else s
    else s
  else s

/-- The direction a call passes to `video_stream_set_direction`, if it is one. -/
def Call.directionSet : Call → Option MediaStreamDir
  | .video_stream_set_direction _ dir => some dir
  | _ => none

/-- The directions passed to `video_stream_set_direction` in a trace, in order. -/
def directionsSet (calls : List Call) : List MediaStreamDir :=
  calls.filterMap Call.directionSet

/-- Whether a call starts the engine stream: `video_stream_start_from_io` or
`video_stream_start_with_source`. -/
def Call.isEngineStart : Call → Bool
  | .video_stream_start_from_io .. => true
  | .video_stream_start_with_source .. => true
  | _ => false

/-- The engine-start calls of a trace, in order. -/
def engineStarts (calls : List Call) : List Call :=
  calls.filter Call.isEngineStart

/-- Whether a call starts the ZRTP handshake of the video stream:
`video_stream_start_zrtp`. -/
def Call.isZrtpStart : Call → Bool
  | .video_stream_start_zrtp _ => true
  | _ => false

/-- The number of handshake starts in a trace. -/
def zrtpStartCount (calls : List Call) : Nat :=
  calls.countP Call.isZrtpStart

/-- Whether a call stops an engine stream: `video_stream_stop`. -/
def Call.isEngineStop : Call → Bool
  | .video_stream_stop _ => true
  | _ => false

/-- The engine-stop calls of a trace, in order. -/
def engineStops (calls : List Call) : List Call :=
  calls.filter Call.isEngineStop

/-- Whether a call is the notification `onResetFirstVideoFrameDecoded`. -/
def Call.isFirstFrameReset : Call → Bool
  | .onResetFirstVideoFrameDecoded => true
  | _ => false

/-- The number of first-frame-reset notifications in a trace. -/
def resetCount (calls : List Call) : Nat :=
  calls.countP Call.isFirstFrameReset

/-- A sequence of `render` calls on one controller, each with the answers of the
environment at that time, its context and its target state. -/
def MS2VideoStream.renders (s : MS2VideoStream) :
    List (Environment × OfferAnswerContext × CallSessionState) → MS2VideoStream
  | [] => s
  | (env, ctx, targetState) :: rest => (s.render env ctx targetState).renders rest

/-- The parts of the setup that `render`, `stop` and `zrtpStarted` read and never
write: the video configuration of the core, the listener, the media encryption
of the session and the main audio stream. -/
def MS2VideoStream.SameSetup (s s' : MS2VideoStream) : Prop :=
  s'.core.video_conf = s.core.video_conf ∧
  s'.session.listener = s.session.listener ∧
  s'.session.mediaEncryption = s.session.mediaEncryption ∧
  s'.mainAudioStream = s.mainAudioStream

/-! ## Example inputs -/

/-- A session whose remote parameters enable audio and real-time text, not video. -/
def exampleSession : CallSession :=
  { getRemoteParams := some (.media
      { audioEnabled := true, videoEnabled := false, realtimeTextEnabled := true }) }

/-- A session whose remote parameters are not available. -/
def exampleSessionNoParams : CallSession :=
  { getRemoteParams := none }

/-- A freshly built device to which `exampleSession` has been attached behind the
back of `updateMedia`. -/
def exampleDevice : ParticipantDevice :=
  { ParticipantDevice.new 0 with mSession := some exampleSession }

/-- A device with video sending and receiving and a session without remote
parameters. -/
def exampleDeviceNoParams : ParticipantDevice :=
  { ((ParticipantDevice.new 0).setMediaDirection .SendRecv .Video).2 with
    mSession := some exampleSessionNoParams }

/-- An environment in which `224.1.2.3` is the one multicast address, a payload
type is always selected (number 0), and no preview source is kept. -/
def exampleEnvironment : Environment :=
  { VIDEO_ENABLED := true,
    ms_is_multicast := fun addr => addr = "224.1.2.3",
    makeProfile := fun _ _ => ({ payload := [some { mime_type := "VP8" }] }, 0),
    video_preview_stop_reuse_source := fun _ => none,
    createRtpIoSession := none,
    staticImageCam := some 7,
    ms_zrtp_setPeerHelloHash := fun _ => 0 }

/-- A core with the given capture and display flags, no preview stream and the
default configuration. -/
def exampleCore (capture display : Bool) : LinphoneCore :=
  { previewstream := none,
    video_conf := { capture := capture, display := display, reuse_preview_source := false,
                    selfview := true, preview_vsize_width := 0, preview_vsize_height := 0,
                    device := some 3 },
    config := { nowebcam_uses_normal_fps := none, freeze_on_error := none, preset := none,
                rtp_io_enabled := none },
    video_window_id := none, preview_window_id := none, use_preview_window := false,
    device_rotation := 0, preferred_framerate := 30,
    preferred_video_definition_width := 640, preferred_video_definition_height := 480,
    rtcp_enabled := true, retransmission_on_nack_enabled := false, zrtp_supported := false }

/-- A prepared controller with engine stream 1, a listener, no encryption and no
audio stream, on a core with the given capture and display flags. -/
def exampleStream (capture display : Bool) : MS2VideoStream :=
  { mStream := some 1, mNativeWindowId := none, mCameraEnabled := true, mVideoMuted := false,
    mState := .Preparing, core := exampleCore capture display,
    session := { listener := true,
                 currentParams := { usedAudioCodec := none, usedVideoCodec := none,
                                    videoEnabled := false },
                 mediaEncryption := .Other 0, encryptionMandatory := false,
                 log_video_enabled := false },
    mainAudioStream := none, calls := [] }

/-- A stream description with the given direction, RTP port, multicast role and
address. -/
def exampleDescription (dir : SalStreamDir) (port : Int) (role : SalMulticastRole)
    (addr : String) : SalStreamDescription :=
  { dir := dir, rtp_port := port, rtcp_port := 0, rtp_addr := addr, rtcp_addr := addr,
    multicast_role := role, haveZrtpHash := 0, zrtphash := "" }

/-- An offer/answer context around `exampleDescription`. -/
def exampleContext (dir : SalStreamDir) (port : Int) (role : SalMulticastRole)
    (addr : String) : OfferAnswerContext :=
  { resultMediaDescription := { addr := "192.168.0.10" },
    resultStreamDescription := exampleDescription dir port role addr,
    remoteStreamDescription := exampleDescription dir port role addr }

/-- An environment like `exampleEnvironment` in which `makeProfile` selects no
payload type: it leaves `usedPt` at -1. -/
def exampleEnvironmentNoPayload : Environment :=
  { exampleEnvironment with
    makeProfile := fun _ _ => ({ payload := [some { mime_type := "VP8" }] }, -1) }

/-- An environment like `exampleEnvironment` in which the validation of the peer
hash fails: `ms_zrtp_setPeerHelloHash` returns a non-zero value. -/
def exampleEnvironmentHashMismatch : Environment :=
  { exampleEnvironment with ms_zrtp_setPeerHelloHash := fun _ => 1 }

/-- The controller `exampleStream true true` in a session with the given media
encryption and the given main audio stream. -/
def exampleStreamEncryption (mediaEncryption : LinphoneMediaEncryption)
    (audio : Option MainAudioStream) : MS2VideoStream :=
  { exampleStream true true with
    session := { (exampleStream true true).session with mediaEncryption := mediaEncryption },
    mainAudioStream := audio }

/-- A unicast SendRecv context on port 5004 whose remote stream description
advertises a peer hash or not. -/
def exampleContextHash (haveZrtpHash : Nat) : OfferAnswerContext :=
  { exampleContext .SendRecv 5004 .None "192.168.0.10" with
    remoteStreamDescription :=
      { exampleDescription .SendRecv 5004 .None "192.168.0.10" with
        haveZrtpHash := haveZrtpHash, zrtphash := "1:abcd" } }

/-! ## Theorems about `ParticipantDevice` -/

/-- Reading back the key just assigned. -/
theorem find_assign_same (m : MediaCapabilities) (k : ConferenceMediaCapabilities)
    (d : LinphoneMediaDirection) : (m.assign k d).find k = some d := by
  simp [MediaCapabilities.assign, MediaCapabilities.find]

/-- Assigning one key leaves the others alone. -/
theorem find_assign_other (m : MediaCapabilities) (k k' : ConferenceMediaCapabilities)
    (d : LinphoneMediaDirection) (h : k' ≠ k) : (m.assign k d).find k' = m.find k' := by
  simp [MediaCapabilities.assign, MediaCapabilities.find, h]

/-- After `setMediaDirection(d, k)` the entry of `k` is `d`. -/
theorem setMediaDirection_find_same (dev : ParticipantDevice) (d : LinphoneMediaDirection)
    (k : ConferenceMediaCapabilities) :
    (dev.setMediaDirection d k).2.mediaCapabilities.find k = some d := by
  unfold ParticipantDevice.setMediaDirection
  cases h : dev.mediaCapabilities.find k with
  | none => simp [find_assign_same]
  | some stored =>
    by_cases hd : stored = d
    · simp [hd, ← h]
      simpa [hd] using h
    · simp [hd, find_assign_same]

/-- The call `setMediaDirection(d, k)` leaves the entries of the other kinds alone. -/
theorem setMediaDirection_find_other (dev : ParticipantDevice) (d : LinphoneMediaDirection)
    (k k' : ConferenceMediaCapabilities) (h : k' ≠ k) :
    (dev.setMediaDirection d k).2.mediaCapabilities.find k' = dev.mediaCapabilities.find k' := by
  unfold ParticipantDevice.setMediaDirection
  cases hk : dev.mediaCapabilities.find k with
  | none => simp [find_assign_other _ _ _ _ h]
  | some stored =>
    by_cases hd : stored = d
    · simp [hd]
    · simp [hd, find_assign_other _ _ _ _ h]

/-- The call `setMediaDirection` does not touch the session pointer. -/
theorem setMediaDirection_mSession (dev : ParticipantDevice) (d : LinphoneMediaDirection)
    (k : ConferenceMediaCapabilities) :
    (dev.setMediaDirection d k).2.mSession = dev.mSession := by
  unfold ParticipantDevice.setMediaDirection
  cases hk : dev.mediaCapabilities.find k with
  | none => simp
  | some stored => by_cases hd : stored = d <;> simp [hd]

/-- The returned flag of `setMediaDirection`, by the stored entry. -/
theorem setMediaDirection_fst (dev : ParticipantDevice) (d : LinphoneMediaDirection)
    (k : ConferenceMediaCapabilities) :
    (dev.setMediaDirection d k).1 = decide (dev.mediaCapabilities.find k ≠ some d) := by
  unfold ParticipantDevice.setMediaDirection
  cases hk : dev.mediaCapabilities.find k with
  | none => simp
  | some stored => by_cases hd : stored = d <;> simp [hd]

/-- What `getMediaDirection` returns, by the stored entry. -/
theorem getMediaDirection_eq (dev : ParticipantDevice) (k : ConferenceMediaCapabilities) :
    dev.getMediaDirection k = .ok ((dev.mediaCapabilities.find k).getD .Inactive) := by
  unfold ParticipantDevice.getMediaDirection MediaCapabilities.atKey MediaCapabilities.find
  cases dev.mediaCapabilities k <;> rfl

/-- The entry of each kind after `updateMedia`, by the session and its remote
parameters. -/
theorem updateMedia_find (dev : ParticipantDevice) (k : ConferenceMediaCapabilities) :
    dev.updateMedia.2.mediaCapabilities.find k =
      match dev.mSession with
      | none => some .Inactive
      | some session =>
        match dynamic_cast_MediaSessionParams session.getRemoteParams with
        | none => if k = .Text then some .SendRecv else dev.mediaCapabilities.find k
        | some p =>
          match k with
          | .Audio => some (if p.audioEnabled then .SendRecv else .Inactive)
          | .Video => some (if p.videoEnabled then .SendRecv else .Inactive)
          | .Text => some (if p.realtimeTextEnabled then .SendRecv else .Inactive) := by
  unfold ParticipantDevice.updateMedia
  cases hs : dev.mSession with
  | none =>
    cases k <;>
      simp [ParticipantDevice.setAudioDirection, ParticipantDevice.setVideoDirection,
        ParticipantDevice.setTextDirection, setMediaDirection_find_same,
        setMediaDirection_find_other]
  | some session =>
    cases hp : dynamic_cast_MediaSessionParams session.getRemoteParams with
    | none =>
      cases k <;>
        simp [hp, ParticipantDevice.setTextDirection, setMediaDirection_find_same,
          setMediaDirection_find_other]
    | some p =>
      cases k <;>
        simp [hp, ParticipantDevice.setAudioDirection, ParticipantDevice.setVideoDirection,
          ParticipantDevice.setTextDirection, setMediaDirection_find_same,
          setMediaDirection_find_other]

/-- The flag returned by `updateMedia` is the disjunction of the flags of the
`setMediaDirection` calls it makes, each of which compares the stored entry. -/
theorem updateMedia_fst (dev : ParticipantDevice) :
    dev.updateMedia.1 =
      match dev.mSession with
      | none =>
        (decide (dev.mediaCapabilities.find .Audio ≠ some .Inactive) ||
          decide (dev.mediaCapabilities.find .Video ≠ some .Inactive)) ||
          decide (dev.mediaCapabilities.find .Text ≠ some .Inactive)
      | some session =>
        match dynamic_cast_MediaSessionParams session.getRemoteParams with
        | none => decide (dev.mediaCapabilities.find .Text ≠ some .SendRecv)
        | some p =>
          (decide (dev.mediaCapabilities.find .Audio ≠
              some (if p.audioEnabled then .SendRecv else .Inactive)) ||
            decide (dev.mediaCapabilities.find .Video ≠
              some (if p.videoEnabled then .SendRecv else .Inactive))) ||
            decide (dev.mediaCapabilities.find .Text ≠
              some (if p.realtimeTextEnabled then .SendRecv else .Inactive)) := by
  unfold ParticipantDevice.updateMedia
  cases hs : dev.mSession with
  | none =>
    simp [ParticipantDevice.setAudioDirection, ParticipantDevice.setVideoDirection,
      ParticipantDevice.setTextDirection, setMediaDirection_fst,
      setMediaDirection_find_other]
  | some session =>
    cases hp : dynamic_cast_MediaSessionParams session.getRemoteParams with
    | none => simp [hp, ParticipantDevice.setTextDirection, setMediaDirection_fst]
    | some p =>
      simp [hp, ParticipantDevice.setAudioDirection, ParticipantDevice.setVideoDirection,
        ParticipantDevice.setTextDirection, setMediaDirection_fst,
        setMediaDirection_find_other]

/-- The call `updateMedia` does not touch the session pointer. -/
theorem updateMedia_mSession (dev : ParticipantDevice) :
    dev.updateMedia.2.mSession = dev.mSession := by
  unfold ParticipantDevice.updateMedia
  cases hs : dev.mSession with
  | none =>
    simp [ParticipantDevice.setAudioDirection, ParticipantDevice.setVideoDirection,
      ParticipantDevice.setTextDirection, setMediaDirection_mSession, hs]
  | some session =>
    cases hp : dynamic_cast_MediaSessionParams session.getRemoteParams with
    | none => simp [hp, ParticipantDevice.setTextDirection, setMediaDirection_mSession, hs]
    | some p =>
      simp [hp, ParticipantDevice.setAudioDirection, ParticipantDevice.setVideoDirection,
        ParticipantDevice.setTextDirection, setMediaDirection_mSession, hs]

/-- Every kind has the entry Inactive in a device built by a constructor. -/
theorem initMedia_find (dev : ParticipantDevice) (k : ConferenceMediaCapabilities) :
    dev.initMedia.mediaCapabilities.find k = some .Inactive := by
  unfold ParticipantDevice.initMedia
  cases k
  · rw [setMediaDirection_find_other _ _ _ _ (by decide),
      setMediaDirection_find_other _ _ _ _ (by decide), setMediaDirection_find_same]
  · rw [setMediaDirection_find_other _ _ _ _ (by decide), setMediaDirection_find_same]
  · rw [setMediaDirection_find_same]

/-- Every kind has an entry in every reachable device. -/
theorem Reachable.find_isSome {dev : ParticipantDevice} (h : Reachable dev)
    (k : ConferenceMediaCapabilities) : (dev.mediaCapabilities.find k).isSome = true := by
  induction h generalizing k with
  | created now => simp [ParticipantDevice.new, initMedia_find]
  | createdWith participant gruu name now => simp [ParticipantDevice.newWith, initMedia_find]
  | afterSetMediaDirection dev d k' _ ih =>
    by_cases hk : k = k'
    · subst hk; simp [setMediaDirection_find_same]
    · rw [setMediaDirection_find_other _ _ _ _ hk]; exact ih k
  | afterSetSession dev session _ ih =>
    unfold ParticipantDevice.setSession
    rw [updateMedia_find]
    cases session with
    | none => simp
    | some sess =>
      cases hp : dynamic_cast_MediaSessionParams sess.getRemoteParams with
      | none =>
        by_cases hk : k = .Text
        · simp [hp, hk]
        · simpa [hp, hk] using ih k
      | some p => cases k <;> simp [hp]
  | afterUpdateMedia dev _ ih =>
    rw [updateMedia_find]
    cases hs : dev.mSession with
    | none => simp
    | some sess =>
      cases hp : dynamic_cast_MediaSessionParams sess.getRemoteParams with
      | none =>
        by_cases hk : k = .Text
        · simp [hp, hk]
        · simpa [hp, hk] using ih k
      | some p => cases k <;> simp [hp]
  | sessionChanged dev session _ _ ih => exact ih k

/-- A property holds of some kind iff it holds of Audio, of Video or of Text. -/
theorem exists_capability (P : ConferenceMediaCapabilities → Prop) :
    (∃ k, P k) ↔ P .Audio ∨ P .Video ∨ P .Text := by
  constructor
  · rintro ⟨k, hk⟩
    cases k
    · exact Or.inl hk
    · exact Or.inr (Or.inl hk)
    · exact Or.inr (Or.inr hk)
  · rintro (h | h | h)
    · exact ⟨_, h⟩
    · exact ⟨_, h⟩
    · exact ⟨_, h⟩

/-- C1: for every device state, direction `d` and kind `k`, `setMediaDirection(d, k)`
returns true if and only if `k` had no stored entry or its stored direction
differed from `d`; the call stores `d`, and an immediately repeated call with
the same `(d, k)` returns false. -/
theorem setMediaDirection_changed_iff (dev : ParticipantDevice) (d : LinphoneMediaDirection)
    (k : ConferenceMediaCapabilities) :
    ((dev.setMediaDirection d k).1 = true ↔
      (dev.mediaCapabilities.find k = none ∨
        ∃ stored, dev.mediaCapabilities.find k = some stored ∧ stored ≠ d)) ∧
    (dev.setMediaDirection d k).2.mediaCapabilities.find k = some d ∧
    ((dev.setMediaDirection d k).2.setMediaDirection d k).1 = false := by
  refine ⟨?_, setMediaDirection_find_same dev d k, ?_⟩
  · rw [setMediaDirection_fst]
    cases h : dev.mediaCapabilities.find k with
    | none => simp
    | some stored => simp
  · rw [setMediaDirection_fst, setMediaDirection_find_same]
    simp

/-- C2: when `updateMedia()` is called on a device with a session attached whose
remote parameters are available, afterwards Audio is SendRecv if remote audio is
enabled and Inactive otherwise, Video is SendRecv if remote video is enabled and
Inactive otherwise, and Text is SendRecv if remote real-time text is enabled and
Inactive otherwise, whatever the directions were before. -/
theorem updateMedia_with_remote_params (dev : ParticipantDevice) (session : CallSession)
    (p : MediaSessionParams) (hs : dev.mSession = some session)
    (hp : dynamic_cast_MediaSessionParams session.getRemoteParams = some p) :
    dev.updateMedia.2.getMediaDirection .Audio =
      .ok (if p.audioEnabled then .SendRecv else .Inactive) ∧
    dev.updateMedia.2.getMediaDirection .Video =
      .ok (if p.videoEnabled then .SendRecv else .Inactive) ∧
    dev.updateMedia.2.getMediaDirection .Text =
      .ok (if p.realtimeTextEnabled then .SendRecv else .Inactive) := by
  simp [getMediaDirection_eq, updateMedia_find, hs, hp]

/-- The scenario of C2: remote parameters {audio = true, video = false, rtt = true}
give Audio = SendRecv, Video = Inactive, Text = SendRecv. -/
theorem updateMedia_with_remote_params_witness :
    exampleDevice.mSession = some exampleSession ∧
    dynamic_cast_MediaSessionParams exampleSession.getRemoteParams =
      some { audioEnabled := true, videoEnabled := false, realtimeTextEnabled := true } ∧
    exampleDevice.updateMedia.2.getMediaDirection .Audio = .ok .SendRecv ∧
    exampleDevice.updateMedia.2.getMediaDirection .Video = .ok .Inactive ∧
    exampleDevice.updateMedia.2.getMediaDirection .Text = .ok .SendRecv :=
  ⟨rfl, rfl,
    updateMedia_with_remote_params exampleDevice exampleSession
      { audioEnabled := true, videoEnabled := false, realtimeTextEnabled := true } rfl rfl⟩

/-- C3: on a device with no session attached, `updateMedia()` leaves Audio, Video
and Text all Inactive; and `setSession(none)` on any device detaches the session
and leaves all three directions Inactive. -/
theorem updateMedia_without_session (dev : ParticipantDevice) :
    (dev.mSession = none →
      ∀ k, dev.updateMedia.2.getMediaDirection k = .ok .Inactive) ∧
    (dev.setSession none).mSession = none ∧
    ∀ k, (dev.setSession none).getMediaDirection k = .ok .Inactive := by
  refine ⟨?_, ?_, ?_⟩
  · intro hs k
    simp [getMediaDirection_eq, updateMedia_find, hs]
  · simp [ParticipantDevice.setSession, updateMedia_mSession]
  · intro k
    simp [ParticipantDevice.setSession, getMediaDirection_eq, updateMedia_find]

/-- An instance of C3: a device with video sending and receiving and no session. -/
theorem updateMedia_without_session_witness :
    ((ParticipantDevice.new 0).setMediaDirection .SendRecv .Video).2.mSession = none ∧
    ∀ k, ((ParticipantDevice.new 0).setMediaDirection .SendRecv
      .Video).2.updateMedia.2.getMediaDirection k = .ok .Inactive :=
  ⟨rfl, (updateMedia_without_session
    ((ParticipantDevice.new 0).setMediaDirection .SendRecv .Video).2).1 rfl⟩

/-- C4: on a device with a session attached whose remote parameters are not
available, `updateMedia()` sets Text to SendRecv and leaves the Audio and Video
directions exactly as they were: the stored entries and what `getMediaDirection`
reports. -/
theorem updateMedia_without_remote_params (dev : ParticipantDevice) (session : CallSession)
    (hs : dev.mSession = some session)
    (hp : dynamic_cast_MediaSessionParams session.getRemoteParams = none) :
    dev.updateMedia.2.getMediaDirection .Text = .ok .SendRecv ∧
    dev.updateMedia.2.mediaCapabilities.find .Audio = dev.mediaCapabilities.find .Audio ∧
    dev.updateMedia.2.mediaCapabilities.find .Video = dev.mediaCapabilities.find .Video ∧
    dev.updateMedia.2.getMediaDirection .Audio = dev.getMediaDirection .Audio ∧
    dev.updateMedia.2.getMediaDirection .Video = dev.getMediaDirection .Video := by
  simp [getMediaDirection_eq, updateMedia_find, hs, hp]

/-- An instance of C4: video stays SendRecv, audio stays Inactive, text becomes
SendRecv. -/
theorem updateMedia_without_remote_params_witness :
    exampleDeviceNoParams.mSession = some exampleSessionNoParams ∧
    dynamic_cast_MediaSessionParams exampleSessionNoParams.getRemoteParams = none ∧
    exampleDeviceNoParams.updateMedia.2.getMediaDirection .Text = .ok .SendRecv ∧
    exampleDeviceNoParams.updateMedia.2.getMediaDirection .Audio = .ok .Inactive ∧
    exampleDeviceNoParams.updateMedia.2.getMediaDirection .Video = .ok .SendRecv :=
  ⟨rfl, rfl,
    (updateMedia_without_remote_params exampleDeviceNoParams exampleSessionNoParams
      rfl rfl).1, rfl, rfl⟩

/-- C5: for every device reachable from construction through `setMediaDirection`,
`setSession` and `updateMedia`, whatever the session and its remote parameters,
`updateMedia()` returns true if and only if, for at least one of Audio, Video,
Text, `getMediaDirection` after the call differs from `getMediaDirection` before
the call. -/
theorem updateMedia_returns_changed (dev : ParticipantDevice) (h : Reachable dev) :
    dev.updateMedia.1 = true ↔
      ∃ k, dev.updateMedia.2.getMediaDirection k ≠ dev.getMediaDirection k := by
  obtain ⟨a, ha⟩ := Option.isSome_iff_exists.mp (h.find_isSome .Audio)
  obtain ⟨v, hv⟩ := Option.isSome_iff_exists.mp (h.find_isSome .Video)
  obtain ⟨t, ht⟩ := Option.isSome_iff_exists.mp (h.find_isSome .Text)
  rw [updateMedia_fst, exists_capability]
  simp only [getMediaDirection_eq, updateMedia_find]
  cases hs : dev.mSession with
  | none =>
    simp [ha, hv, ht]
    tauto
  | some session =>
    cases hp : dynamic_cast_MediaSessionParams session.getRemoteParams with
    | none =>
      simp [ha, hv, ht, hp]
      tauto
    | some p =>
      simp [ha, hv, ht, hp]
      tauto

/-- An instance of C5: a device built by the default constructor, given video
SendRecv, on which `updateMedia()` (no session) returns true. -/
theorem updateMedia_returns_changed_witness :
    Reachable ((ParticipantDevice.new 0).setMediaDirection .SendRecv .Video).2 ∧
    (((ParticipantDevice.new 0).setMediaDirection .SendRecv .Video).2.updateMedia.1 = true ↔
      ∃ k, ((ParticipantDevice.new 0).setMediaDirection .SendRecv
          .Video).2.updateMedia.2.getMediaDirection k ≠
        ((ParticipantDevice.new 0).setMediaDirection .SendRecv .Video).2.getMediaDirection k) :=
  ⟨Reachable.afterSetMediaDirection _ _ _ (Reachable.created 0),
    updateMedia_returns_changed _
      (Reachable.afterSetMediaDirection _ _ _ (Reachable.created 0))⟩

/-- C6: `getMediaDirection(k)` never fails, for any device state and any kind `k`: it
returns the stored direction when `k` has an entry and Inactive when it has
none; a device freshly built by either constructor reports Inactive for Audio,
Video and Text. -/
theorem getMediaDirection_never_fails (dev : ParticipantDevice)
    (k : ConferenceMediaCapabilities) :
    dev.getMediaDirection k =
      .ok (match dev.mediaCapabilities.find k with
        | some stored => stored
        | none => .Inactive) ∧
    (∀ now, (ParticipantDevice.new now).getMediaDirection k = .ok .Inactive) ∧
    (∀ participant gruu name now,
      (ParticipantDevice.newWith participant gruu name now).getMediaDirection k =
        .ok .Inactive) := by
  refine ⟨?_, ?_, ?_⟩
  · rw [getMediaDirection_eq]
    cases dev.mediaCapabilities.find k <;> rfl
  · intro now
    simp [getMediaDirection_eq, ParticipantDevice.new, initMedia_find]
  · intro participant gruu name now
    simp [getMediaDirection_eq, ParticipantDevice.newWith, initMedia_find]

/-! ## Theorems about `MS2VideoStream` -/

/-- The directions set in a concatenation of traces. -/
theorem directionsSet_append (a b : List Call) :
    directionsSet (a ++ b) = directionsSet a ++ directionsSet b := by
  simp [directionsSet, List.filterMap_append]

/-- The engine starts of a concatenation of traces. -/
theorem engineStarts_append (a b : List Call) :
    engineStarts (a ++ b) = engineStarts a ++ engineStarts b := by
  simp [engineStarts, List.filter_append]

/-- The preview shutdown sets no direction, starts no engine stream and leaves
the controller's members, the video configuration and the session alone. -/
theorem shutdownPreview_frame (env : Environment) (s : MS2VideoStream) :
    directionsSet (s.shutdownPreview env).2.calls = directionsSet s.calls ∧
    engineStarts (s.shutdownPreview env).2.calls = engineStarts s.calls ∧
    (s.shutdownPreview env).2.mStream = s.mStream ∧
    (s.shutdownPreview env).2.mState = s.mState ∧
    (s.shutdownPreview env).2.core.video_conf = s.core.video_conf ∧
    (s.shutdownPreview env).2.session = s.session := by
  unfold MS2VideoStream.shutdownPreview
  cases hp : s.core.previewstream with
  | none => simp
  | some preview =>
    by_cases hr : s.core.video_conf.reuse_preview_source = true <;>
      simp [hr, MS2VideoStream.call, directionsSet_append, engineStarts_append,
        directionsSet, engineStarts, Call.directionSet, Call.isEngineStart]

/-- What `stop()` does: the two calls it issues, the state Stopped, the engine
stream handle dropped. -/
theorem stop_effect (s : MS2VideoStream) :
    s.stop.calls = s.calls ++ [.MS2Stream_stop, .video_stream_stop s.mStream] ∧
    s.stop.mState = .Stopped ∧
    s.stop.mStream = none ∧
    s.stop.core = s.core := by
  simp [MS2VideoStream.stop, MS2Stream.stop, MS2VideoStream.call,
    MS2VideoStream.setUsedAudioCodec]

/-- The call `stop()` sets no direction and starts no engine stream. -/
theorem stop_frame (s : MS2VideoStream) :
    directionsSet s.stop.calls = directionsSet s.calls ∧
    engineStarts s.stop.calls = engineStarts s.calls := by
  rw [(stop_effect s).1, directionsSet_append, engineStarts_append]
  simp [directionsSet, engineStarts, Call.directionSet, Call.isEngineStart]

/-- The settings of lines 190-207 set no direction, start no engine stream and
change nothing but the trace. -/
theorem applySettings_frame (s : MS2VideoStream) :
    directionsSet s.applySettings.calls = directionsSet s.calls ∧
    engineStarts s.applySettings.calls = engineStarts s.calls ∧
    s.applySettings.mStream = s.mStream ∧
    s.applySettings.mState = s.mState ∧
    s.applySettings.core = s.core ∧
    s.applySettings.session = s.session := by
  unfold MS2VideoStream.applySettings
  by_cases h1 : s.core.video_conf.preview_vsize_width = 0 <;>
  by_cases h2 : lp_config_get s.core.config.nowebcam_uses_normal_fps 0 = 0 <;>
  cases h3 : s.mNativeWindowId <;>
  cases h4 : s.core.video_window_id <;>
  cases h5 : s.core.preview_window_id <;>
    simp [h1, h2, h3, h4, h5, MS2VideoStream.call, directionsSet_append, engineStarts_append,
      directionsSet, engineStarts, Call.directionSet, Call.isEngineStart]

/-- The engine start of lines 243-269 sets no direction and changes nothing but
the trace, which it only extends. -/
theorem startEngine_frame (env : Environment) (s : MS2VideoStream)
    (vstream : SalStreamDescription) (source : Option Nat) (videoProfile : RtpProfile)
    (usedPt : Int) (rtpAddr rtcpAddr : String) (isMulticast : Bool) (cam : Option Nat) :
    directionsSet (s.startEngine env vstream source videoProfile usedPt rtpAddr rtcpAddr
      isMulticast cam).2.calls = directionsSet s.calls ∧
    (∃ extra, (s.startEngine env vstream source videoProfile usedPt rtpAddr rtcpAddr
      isMulticast cam).2.calls = s.calls ++ extra) ∧
    (s.startEngine env vstream source videoProfile usedPt rtpAddr rtcpAddr
      isMulticast cam).2.mStream = s.mStream ∧
    (s.startEngine env vstream source videoProfile usedPt rtpAddr rtcpAddr
      isMulticast cam).2.mState = s.mState ∧
    (s.startEngine env vstream source videoProfile usedPt rtpAddr rtcpAddr
      isMulticast cam).2.core = s.core ∧
    (s.startEngine env vstream source videoProfile usedPt rtpAddr rtcpAddr
      isMulticast cam).2.session = s.session ∧
    (s.startEngine env vstream source videoProfile usedPt rtpAddr rtcpAddr
      isMulticast cam).2.mainAudioStream = s.mainAudioStream := by
  unfold MS2VideoStream.startEngine
  cases hr : s.core.video_conf.reuse_preview_source <;>
  cases source <;>
  cases hio : lp_config_get s.core.config.rtp_io_enabled false <;>
  cases hsess : env.createRtpIoSession <;>
    simp [hr, hio, hsess, MS2VideoStream.call, directionsSet_append, directionsSet,
      Call.directionSet]

/-- The ZRTP start of lines 273-286 sets no direction, starts no engine stream and
changes nothing but the trace, which it only extends. -/
theorem startZrtp_frame (env : Environment) (s : MS2VideoStream)
    (remoteStream : SalStreamDescription) :
    directionsSet (s.startZrtp env remoteStream).calls = directionsSet s.calls ∧
    engineStarts (s.startZrtp env remoteStream).calls = engineStarts s.calls ∧
    (∃ extra, (s.startZrtp env remoteStream).calls = s.calls ++ extra) ∧
    (s.startZrtp env remoteStream).mStream = s.mStream ∧
    (s.startZrtp env remoteStream).mState = s.mState ∧
    (s.startZrtp env remoteStream).core = s.core := by
  unfold MS2VideoStream.startZrtp
  by_cases h0 : s.session.mediaEncryption = .ZRTP <;>
  by_cases h4 : remoteStream.haveZrtpHash = 1 <;>
  cases h2 : s.mainAudioStream with
  | none => simp [h0, h4]
  | some audioStream =>
    cases h3 : audioStream.isEncrypted <;>
      simp [h0, h3, h4, MS2VideoStream.call, directionsSet_append, engineStarts_append,
        directionsSet, engineStarts, Call.directionSet, Call.isEngineStart]

/-- The engine start sets no direction. -/
theorem startEngine_directionsSet (env : Environment) (s : MS2VideoStream)
    (vstream : SalStreamDescription) (source : Option Nat) (videoProfile : RtpProfile)
    (usedPt : Int) (rtpAddr rtcpAddr : String) (isMulticast : Bool) (cam : Option Nat) :
    directionsSet (s.startEngine env vstream source videoProfile usedPt rtpAddr rtcpAddr
      isMulticast cam).2.calls = directionsSet s.calls :=
  (startEngine_frame env s vstream source videoProfile usedPt rtpAddr rtcpAddr isMulticast
    cam).1

/-- The engine start leaves the state of the controller alone. -/
theorem startEngine_mState (env : Environment) (s : MS2VideoStream)
    (vstream : SalStreamDescription) (source : Option Nat) (videoProfile : RtpProfile)
    (usedPt : Int) (rtpAddr rtcpAddr : String) (isMulticast : Bool) (cam : Option Nat) :
    (s.startEngine env vstream source videoProfile usedPt rtpAddr rtcpAddr
      isMulticast cam).2.mState = s.mState :=
  (startEngine_frame env s vstream source videoProfile usedPt rtpAddr rtcpAddr isMulticast
    cam).2.2.2.1

/-- The engine start leaves the core alone. -/
theorem startEngine_core (env : Environment) (s : MS2VideoStream)
    (vstream : SalStreamDescription) (source : Option Nat) (videoProfile : RtpProfile)
    (usedPt : Int) (rtpAddr rtcpAddr : String) (isMulticast : Bool) (cam : Option Nat) :
    (s.startEngine env vstream source videoProfile usedPt rtpAddr rtcpAddr
      isMulticast cam).2.core = s.core :=
  (startEngine_frame env s vstream source videoProfile usedPt rtpAddr rtcpAddr isMulticast
    cam).2.2.2.2.1

/-- The ZRTP start sets no direction. -/
theorem startZrtp_directionsSet (env : Environment) (s : MS2VideoStream)
    (remoteStream : SalStreamDescription) :
    directionsSet (s.startZrtp env remoteStream).calls = directionsSet s.calls :=
  (startZrtp_frame env s remoteStream).1

/-- The ZRTP start leaves the state of the controller alone. -/
theorem startZrtp_mState (env : Environment) (s : MS2VideoStream)
    (remoteStream : SalStreamDescription) :
    (s.startZrtp env remoteStream).mState = s.mState :=
  (startZrtp_frame env s remoteStream).2.2.2.2.1

/-- The ZRTP start leaves the core alone. -/
theorem startZrtp_core (env : Environment) (s : MS2VideoStream)
    (remoteStream : SalStreamDescription) :
    (s.startZrtp env remoteStream).core = s.core :=
  (startZrtp_frame env s remoteStream).2.2.2.2.2

/-- Lines 235-242 of `render` pass `dir` to `video_stream_set_direction` on the
engine stream, start no engine stream and leave the controller Running. -/
theorem configureStream_effect (s : MS2VideoStream) (ctx : OfferAnswerContext)
    (targetState : CallSessionState) (dir : MediaStreamDir) :
    directionsSet (s.configureStream ctx targetState dir).calls =
      directionsSet s.calls ++ [dir] ∧
    engineStarts (s.configureStream ctx targetState dir).calls = engineStarts s.calls ∧
    .video_stream_set_direction s.mStream dir ∈ (s.configureStream ctx targetState dir).calls ∧
    (s.configureStream ctx targetState dir).mState = .Running ∧
    (s.configureStream ctx targetState dir).mStream = s.mStream ∧
    (s.configureStream ctx targetState dir).core = s.core := by
  simp [MS2VideoStream.configureStream, MS2VideoStream.call, MS2Stream.render,
    directionsSet_append, engineStarts_append, directionsSet, engineStarts,
    Call.directionSet, Call.isEngineStart]

/-- The ZRTP start starts no engine stream. -/
theorem startZrtp_engineStarts (env : Environment) (s : MS2VideoStream)
    (remoteStream : SalStreamDescription) :
    engineStarts (s.startZrtp env remoteStream).calls = engineStarts s.calls :=
  (startZrtp_frame env s remoteStream).2.1

/-- Lines 271-296 of `render` set no direction, start no engine stream and leave
the state of the controller alone. -/
theorem finishRender_frame (env : Environment) (s : MS2VideoStream)
    (ctx : OfferAnswerContext) (listener : Bool) (source : Option Nat)
    (reusedPreview : Bool) :
    directionsSet (s.finishRender env ctx listener source reusedPreview).calls =
      directionsSet s.calls ∧
    engineStarts (s.finishRender env ctx listener source reusedPreview).calls =
      engineStarts s.calls ∧
    (s.finishRender env ctx listener source reusedPreview).mState = s.mState := by
  unfold MS2VideoStream.finishRender
  simp only []
  cases reusedPreview <;> cases source <;> cases listener <;>
    cases hn : s.core.retransmission_on_nack_enabled <;>
    simp [hn, MS2VideoStream.call, directionsSet_append, engineStarts_append,
      startZrtp_directionsSet, startZrtp_engineStarts, startZrtp_mState, startZrtp_core] <;>
    simp [directionsSet, engineStarts, Call.directionSet, Call.isEngineStart]

/-- Lines 271-296 of `render` only extend the trace. -/
theorem finishRender_calls (env : Environment) (s : MS2VideoStream)
    (ctx : OfferAnswerContext) (listener : Bool) (source : Option Nat)
    (reusedPreview : Bool) :
    ∃ extra, (s.finishRender env ctx listener source reusedPreview).calls =
      s.calls ++ extra := by
  unfold MS2VideoStream.finishRender
  simp only []
  generalize hs1 : (if listener = true then s.call .onResetFirstVideoFrameDecoded else s) = s1
  have h1 : ∃ e, s1.calls = s.calls ++ e := by
    subst hs1
    cases listener
    · exact ⟨[], by simp⟩
    · exact ⟨[.onResetFirstVideoFrameDecoded], by simp [MS2VideoStream.call]⟩
  obtain ⟨e1, h1⟩ := h1
  obtain ⟨e2, h2⟩ := (startZrtp_frame env s1 ctx.remoteStreamDescription).2.2.1
  generalize s1.startZrtp env ctx.remoteStreamDescription = s2 at h2 ⊢
  generalize hs3 : (if s2.core.retransmission_on_nack_enabled = true then
    s2.call (.video_stream_enable_retransmission_on_nack s2.mStream true) else s2) = s3
  have h3 : ∃ e, s3.calls = s2.calls ++ e := by
    subst hs3
    cases s2.core.retransmission_on_nack_enabled
    · exact ⟨[], by simp⟩
    · exact ⟨[.video_stream_enable_retransmission_on_nack s2.mStream true],
        by simp [MS2VideoStream.call]⟩
  obtain ⟨e3, h3⟩ := h3
  split
  next src =>
    refine ⟨e1 ++ e2 ++ e3 ++ [.ms_filter_destroy src], ?_⟩
    simp only [MS2VideoStream.call, h3, h2, h1, List.append_assoc]
  · exact ⟨e1 ++ e2 ++ e3, by simp [h3, h2, h1]⟩

/-- The ZRTP start leaves the engine stream handle alone. -/
theorem startZrtp_mStream (env : Environment) (s : MS2VideoStream)
    (remoteStream : SalStreamDescription) :
    (s.startZrtp env remoteStream).mStream = s.mStream :=
  (startZrtp_frame env s remoteStream).2.2.2.1

/-- Lines 271-296 of `render` leave the engine stream handle alone. -/
theorem finishRender_mStream (env : Environment) (s : MS2VideoStream)
    (ctx : OfferAnswerContext) (listener : Bool) (source : Option Nat)
    (reusedPreview : Bool) :
    (s.finishRender env ctx listener source reusedPreview).mStream = s.mStream := by
  unfold MS2VideoStream.finishRender
  simp only []
  cases reusedPreview <;> cases source <;> cases listener <;>
    cases hn : s.core.retransmission_on_nack_enabled <;>
    simp [hn, MS2VideoStream.call, startZrtp_mStream, startZrtp_core]

/-- Lines 234-296 of `render` leave the engine stream handle alone. -/
theorem renderStart_mStream (env : Environment) (s : MS2VideoStream)
    (ctx : OfferAnswerContext) (targetState : CallSessionState) (listener : Bool)
    (source : Option Nat) (videoProfile : RtpProfile) (usedPt : Int)
    (rtpAddr rtcpAddr : String) (isMulticast : Bool) (dir : MediaStreamDir) :
    (s.renderStart env ctx targetState listener source videoProfile usedPt
      rtpAddr rtcpAddr isMulticast dir).mStream = s.mStream := by
  unfold MS2VideoStream.renderStart
  simp only []
  rw [finishRender_mStream,
    (startEngine_frame env _ ctx.resultStreamDescription source videoProfile usedPt
      rtpAddr rtcpAddr isMulticast _).2.2.1,
    (configureStream_effect s ctx targetState dir).2.2.2.2.1]

/-- Once `dir` is set, lines 234-296 of `render` pass exactly `dir` to
`video_stream_set_direction`, on the engine stream, and leave the controller
Running. -/
theorem renderStart_effect (env : Environment) (s : MS2VideoStream)
    (ctx : OfferAnswerContext) (targetState : CallSessionState) (listener : Bool)
    (source : Option Nat) (videoProfile : RtpProfile) (usedPt : Int)
    (rtpAddr rtcpAddr : String) (isMulticast : Bool) (dir : MediaStreamDir) :
    directionsSet (s.renderStart env ctx targetState listener source videoProfile usedPt
      rtpAddr rtcpAddr isMulticast dir).calls = directionsSet s.calls ++ [dir] ∧
    .video_stream_set_direction s.mStream dir ∈
      (s.renderStart env ctx targetState listener source videoProfile usedPt
        rtpAddr rtcpAddr isMulticast dir).calls ∧
    (s.renderStart env ctx targetState listener source videoProfile usedPt
      rtpAddr rtcpAddr isMulticast dir).mState = .Running := by
  unfold MS2VideoStream.renderStart
  simp only []
  have hc := configureStream_effect s ctx targetState dir
  generalize s.configureStream ctx targetState dir = s1 at hc ⊢
  have he := startEngine_frame env s1 ctx.resultStreamDescription source videoProfile usedPt
    rtpAddr rtcpAddr isMulticast (s.getVideoDevice env targetState)
  generalize s1.startEngine env ctx.resultStreamDescription source videoProfile usedPt
    rtpAddr rtcpAddr isMulticast (s.getVideoDevice env targetState) = started at he ⊢
  have hf := finishRender_frame env started.2 ctx listener source started.1
  obtain ⟨e3, h3⟩ := finishRender_calls env started.2 ctx listener source started.1
  obtain ⟨e2, h2⟩ := he.2.1
  refine ⟨?_, ?_, ?_⟩
  · rw [hf.1, he.1, hc.1]
  · rw [h3, h2]
    exact List.mem_append_left _ (List.mem_append_left _ hc.2.2.1)
  · rw [hf.2.2, he.2.2.2.1, hc.2.2.2.1]

/-- On a controller that holds an engine stream: when the descriptor is neither
inactive nor without port, a payload type is selected and lines 211-233 leave
`dir` set, `render` passes exactly `dir` to `video_stream_set_direction`, on the
engine stream it holds, ends Running and still holds that engine stream. -/
theorem render_with_direction (env : Environment) (s : MS2VideoStream)
    (ctx : OfferAnswerContext) (targetState : CallSessionState) (dir : MediaStreamDir)
    (hstream : s.mStream ≠ none)
    (hactive : ¬(ctx.resultStreamDescription.dir = .Inactive ∨
      ctx.resultStreamDescription.rtp_port = 0))
    (hpt : (env.makeProfile ctx.resultMediaDescription ctx.resultStreamDescription).2 ≠ -1)
    (hdir : MS2VideoStream.renderDir (env.ms_is_multicast ctx.rtpAddr)
      ctx.resultStreamDescription s.core.video_conf = some dir) :
    directionsSet (s.render env ctx targetState).calls = directionsSet s.calls ++ [dir] ∧
    .video_stream_set_direction s.mStream dir ∈ (s.render env ctx targetState).calls ∧
    (s.render env ctx targetState).getState = .Running ∧
    (s.render env ctx targetState).mStream = s.mStream ∧
    (s.render env ctx targetState).mStream ≠ none := by
  unfold MS2VideoStream.render MS2VideoStream.getState
  simp only [hactive, hpt, if_false]
  have hp := shutdownPreview_frame env s
  have h1 : ∀ pt, directionsSet
        (((s.shutdownPreview env).2.setUsedVideoCodec pt).enableVideo true).calls =
        directionsSet s.calls ∧
      (((s.shutdownPreview env).2.setUsedVideoCodec pt).enableVideo true).mStream =
        s.mStream ∧
      (((s.shutdownPreview env).2.setUsedVideoCodec pt).enableVideo true).core.video_conf =
        s.core.video_conf := fun pt => ⟨hp.1, hp.2.2.1, hp.2.2.2.2.1⟩
  specialize h1 (rtp_profile_get_payload
    (env.makeProfile ctx.resultMediaDescription ctx.resultStreamDescription).1
    (env.makeProfile ctx.resultMediaDescription ctx.resultStreamDescription).2)
  generalize (((s.shutdownPreview env).2.setUsedVideoCodec
    (rtp_profile_get_payload
      (env.makeProfile ctx.resultMediaDescription ctx.resultStreamDescription).1
      (env.makeProfile ctx.resultMediaDescription
        ctx.resultStreamDescription).2)).enableVideo true) = s1 at h1 ⊢
  have ha := applySettings_frame s1
  generalize s1.applySettings = s2 at ha ⊢
  have hconf : s2.core.video_conf = s.core.video_conf := by rw [ha.2.2.2.2.1, h1.2.2]
  rw [hconf, hdir]
  simp only []
  have hr := renderStart_effect env s2 ctx targetState s.session.listener
    (s.shutdownPreview env).1
    (env.makeProfile ctx.resultMediaDescription ctx.resultStreamDescription).1
    (env.makeProfile ctx.resultMediaDescription ctx.resultStreamDescription).2
    ctx.rtpAddr ctx.rtcpAddr (env.ms_is_multicast ctx.rtpAddr) dir
  have hm := renderStart_mStream env s2 ctx targetState s.session.listener
    (s.shutdownPreview env).1
    (env.makeProfile ctx.resultMediaDescription ctx.resultStreamDescription).1
    (env.makeProfile ctx.resultMediaDescription ctx.resultStreamDescription).2
    ctx.rtpAddr ctx.rtcpAddr (env.ms_is_multicast ctx.rtpAddr) dir
  rw [ha.1, ha.2.2.1, h1.1, h1.2.1] at hr
  rw [ha.2.2.1, h1.2.1] at hm
  exact ⟨hr.1, hr.2.1, hr.2.2, hm, by rw [hm]; exact hstream⟩

/-- C7: when the result stream descriptor has direction Inactive or RTP port 0,
then for all local capture/display flags and every target state `render` is the
preview shutdown followed by `stop()`: after the calls of the preview shutdown it
issues the two calls of `stop()` and nothing else, the controller ends Stopped,
no engine-start call is issued and no direction is set on the engine stream. -/
theorem render_inactive_stops (env : Environment) (s : MS2VideoStream)
    (ctx : OfferAnswerContext) (targetState : CallSessionState)
    (h : ctx.resultStreamDescription.dir = .Inactive ∨
      ctx.resultStreamDescription.rtp_port = 0) :
    s.render env ctx targetState = (s.shutdownPreview env).2.stop ∧
    (s.render env ctx targetState).calls =
      (s.shutdownPreview env).2.calls ++ [.MS2Stream_stop, .video_stream_stop s.mStream] ∧
    (s.render env ctx targetState).getState = .Stopped ∧
    engineStarts (s.render env ctx targetState).calls = engineStarts s.calls ∧
    directionsSet (s.render env ctx targetState).calls = directionsSet s.calls := by
  have hp := shutdownPreview_frame env s
  have hr : s.render env ctx targetState = (s.shutdownPreview env).2.stop := by
    unfold MS2VideoStream.render
    simp only [h, if_true]
  rw [hr]
  refine ⟨rfl, ?_, (stop_effect _).2.1, ?_, ?_⟩
  · rw [(stop_effect _).1, hp.2.2.1]
  · rw [(stop_frame _).2, hp.2.1]
  · rw [(stop_frame _).1, hp.1]

/-- An instance of C7: a descriptor with direction SendRecv and port 0, on a
controller with capture and display enabled. -/
theorem render_inactive_stops_witness :
    (exampleContext .SendRecv 0 .None "192.168.0.10").resultStreamDescription.rtp_port = 0 ∧
    ((exampleStream true true).render exampleEnvironment
      (exampleContext .SendRecv 0 .None "192.168.0.10") .Paused).getState = .Stopped ∧
    engineStarts ((exampleStream true true).render exampleEnvironment
      (exampleContext .SendRecv 0 .None "192.168.0.10") .Paused).calls = [] :=
  ⟨rfl,
    (render_inactive_stops exampleEnvironment (exampleStream true true)
      (exampleContext .SendRecv 0 .None "192.168.0.10") .Paused (Or.inr rfl)).2.2.1,
    (render_inactive_stops exampleEnvironment (exampleStream true true)
      (exampleContext .SendRecv 0 .None "192.168.0.10") .Paused (Or.inr rfl)).2.2.2.1⟩

/-- C8, the claim as stated fails: a descriptor with direction SendOnly, port 5004
and multicast role Receiver, whose address `192.168.0.10` is not a multicast
address, on a controller with capture enabled. The role is not consulted, and
`render` sets SendOnly on the engine stream, not RecvOnly. -/
theorem render_receiver_role_unicast_sends :
    (exampleContext .SendOnly 5004 .Receiver "192.168.0.10").resultStreamDescription.dir ≠
      .Inactive ∧
    (exampleContext .SendOnly 5004 .Receiver "192.168.0.10").resultStreamDescription.rtp_port
      ≠ 0 ∧
    (exampleContext .SendOnly 5004 .Receiver
      "192.168.0.10").resultStreamDescription.multicast_role = .Receiver ∧
    directionsSet ((exampleStream true true).render exampleEnvironment
      (exampleContext .SendOnly 5004 .Receiver "192.168.0.10") (.Other 0)).calls =
      [.SendOnly] ∧
    directionsSet ((exampleStream true true).render exampleEnvironment
      (exampleContext .SendOnly 5004 .Receiver "192.168.0.10") (.Other 0)).calls ≠
      [.RecvOnly] := by
  decide

/-- C8, amended: on a controller that holds an engine stream, for every descriptor
with direction not Inactive, port not 0 and a selected payload type whose RTP
address is a multicast address, whatever the local capture/display flags,
`render` sets on the engine stream exactly RecvOnly when the multicast role is
Receiver and exactly SendOnly when it is Sender. -/
theorem render_multicast_direction (env : Environment) (s : MS2VideoStream)
    (ctx : OfferAnswerContext) (targetState : CallSessionState)
    (hstream : s.mStream ≠ none)
    (hdir : ctx.resultStreamDescription.dir ≠ .Inactive)
    (hport : ctx.resultStreamDescription.rtp_port ≠ 0)
    (hpt : (env.makeProfile ctx.resultMediaDescription ctx.resultStreamDescription).2 ≠ -1)
    (hm : env.ms_is_multicast ctx.rtpAddr = true) :
    (ctx.resultStreamDescription.multicast_role = .Receiver →
      directionsSet (s.render env ctx targetState).calls =
        directionsSet s.calls ++ [.RecvOnly] ∧
      .video_stream_set_direction s.mStream .RecvOnly ∈ (s.render env ctx targetState).calls) ∧
    (ctx.resultStreamDescription.multicast_role = .Sender →
      directionsSet (s.render env ctx targetState).calls =
        directionsSet s.calls ++ [.SendOnly] ∧
      .video_stream_set_direction s.mStream .SendOnly ∈ (s.render env ctx targetState).calls) := by
  have hactive : ¬(ctx.resultStreamDescription.dir = .Inactive ∨
      ctx.resultStreamDescription.rtp_port = 0) := by
    rintro (h | h)
    · exact hdir h
    · exact hport h
  constructor
  · intro hrole
    have h := render_with_direction env s ctx targetState .RecvOnly hstream hactive hpt
      (by simp [MS2VideoStream.renderDir, hm, hrole])
    exact ⟨h.1, h.2.1⟩
  · intro hrole
    have h := render_with_direction env s ctx targetState .SendOnly hstream hactive hpt
      (by simp [MS2VideoStream.renderDir, hm, hrole])
    exact ⟨h.1, h.2.1⟩

/-- An instance of C8 as amended: a receiver of the multicast address `224.1.2.3`
with remote direction SendOnly and capture enabled is set to RecvOnly. -/
theorem render_multicast_direction_witness :
    (exampleStream true true).mStream ≠ none ∧
    exampleEnvironment.ms_is_multicast
      (exampleContext .SendOnly 5004 .Receiver "224.1.2.3").rtpAddr = true ∧
    directionsSet ((exampleStream true true).render exampleEnvironment
      (exampleContext .SendOnly 5004 .Receiver "224.1.2.3") (.Other 0)).calls =
      [.RecvOnly] :=
  ⟨by decide, by decide,
    ((render_multicast_direction exampleEnvironment (exampleStream true true)
      (exampleContext .SendOnly 5004 .Receiver "224.1.2.3") (.Other 0)
      (by decide) (by decide) (by decide) (by decide) (by decide)).1 rfl).1⟩

/-- C9: on a controller that holds an engine stream, for every descriptor whose RTP
address is not a multicast address, with port not 0 and a selected payload
type, the direction `render` sets on the engine stream is: SendOnly when the descriptor's direction is SendOnly and local
capture is enabled; RecvOnly when it is RecvOnly and local display is enabled;
and, when it is SendRecv, SendRecv when both display and capture are enabled,
RecvOnly when only display is enabled, SendOnly when only capture is enabled. -/
theorem render_unicast_direction (env : Environment) (s : MS2VideoStream)
    (ctx : OfferAnswerContext) (targetState : CallSessionState)
    (hstream : s.mStream ≠ none)
    (hm : env.ms_is_multicast ctx.rtpAddr = false)
    (hport : ctx.resultStreamDescription.rtp_port ≠ 0)
    (hpt : (env.makeProfile ctx.resultMediaDescription ctx.resultStreamDescription).2 ≠ -1) :
    (ctx.resultStreamDescription.dir = .SendOnly → s.core.video_conf.capture = true →
      directionsSet (s.render env ctx targetState).calls =
        directionsSet s.calls ++ [.SendOnly] ∧
      .video_stream_set_direction s.mStream .SendOnly ∈ (s.render env ctx targetState).calls) ∧
    (ctx.resultStreamDescription.dir = .RecvOnly → s.core.video_conf.display = true →
      directionsSet (s.render env ctx targetState).calls =
        directionsSet s.calls ++ [.RecvOnly] ∧
      .video_stream_set_direction s.mStream .RecvOnly ∈ (s.render env ctx targetState).calls) ∧
    (ctx.resultStreamDescription.dir = .SendRecv →
      (s.core.video_conf.display = true → s.core.video_conf.capture = true →
        directionsSet (s.render env ctx targetState).calls =
          directionsSet s.calls ++ [.SendRecv] ∧
        .video_stream_set_direction s.mStream .SendRecv ∈
          (s.render env ctx targetState).calls) ∧
      (s.core.video_conf.display = true → s.core.video_conf.capture = false →
        directionsSet (s.render env ctx targetState).calls =
          directionsSet s.calls ++ [.RecvOnly] ∧
        .video_stream_set_direction s.mStream .RecvOnly ∈
          (s.render env ctx targetState).calls) ∧
      (s.core.video_conf.display = false → s.core.video_conf.capture = true →
        directionsSet (s.render env ctx targetState).calls =
          directionsSet s.calls ++ [.SendOnly] ∧
        .video_stream_set_direction s.mStream .SendOnly ∈
          (s.render env ctx targetState).calls)) := by
  have key : ∀ dir, ctx.resultStreamDescription.dir ≠ .Inactive →
      MS2VideoStream.renderDir (env.ms_is_multicast ctx.rtpAddr)
        ctx.resultStreamDescription s.core.video_conf = some dir →
      directionsSet (s.render env ctx targetState).calls = directionsSet s.calls ++ [dir] ∧
      .video_stream_set_direction s.mStream dir ∈ (s.render env ctx targetState).calls := by
    intro dir hdir hres
    have hactive : ¬(ctx.resultStreamDescription.dir = .Inactive ∨
        ctx.resultStreamDescription.rtp_port = 0) := by
      rintro (h | h)
      · exact hdir h
      · exact hport h
    have h := render_with_direction env s ctx targetState dir hstream hactive hpt hres
    exact ⟨h.1, h.2.1⟩
  refine ⟨?_, ?_, ?_⟩
  · intro hd hc
    exact key _ (by simp [hd]) (by simp [MS2VideoStream.renderDir, hm, hd, hc])
  · intro hd hc
    exact key _ (by simp [hd]) (by simp [MS2VideoStream.renderDir, hm, hd, hc])
  · intro hd
    refine ⟨?_, ?_, ?_⟩
    · intro h1 h2
      exact key _ (by simp [hd]) (by simp [MS2VideoStream.renderDir, hm, hd, h1, h2])
    · intro h1 h2
      exact key _ (by simp [hd]) (by simp [MS2VideoStream.renderDir, hm, hd, h1, h2])
    · intro h1 h2
      exact key _ (by simp [hd]) (by simp [MS2VideoStream.renderDir, hm, hd, h1, h2])

/-- An instance of C9: remote SendRecv with display only gives RecvOnly. -/
theorem render_unicast_direction_witness :
    (exampleStream false true).mStream ≠ none ∧
    exampleEnvironment.ms_is_multicast
      (exampleContext .SendRecv 5004 .None "192.168.0.10").rtpAddr = false ∧
    directionsSet ((exampleStream false true).render exampleEnvironment
      (exampleContext .SendRecv 5004 .None "192.168.0.10") (.Other 0)).calls =
      [.RecvOnly] :=
  ⟨by decide, by decide,
    ((render_unicast_direction exampleEnvironment (exampleStream false true)
      (exampleContext .SendRecv 5004 .None "192.168.0.10") (.Other 0)
      (by decide) (by decide) (by decide) (by decide)).2.2 rfl).2.1 rfl rfl |>.1⟩

/-- C10, the failing input: a descriptor with direction SendRecv, port 5004 and a
unicast address, on a controller with capture and display both disabled. The
`else` of lines 226-227 sets SendOnly; `render` does not stop the controller but
starts the engine stream and leaves the controller Running. -/
theorem render_sendrecv_without_capability_starts :
    (exampleStream false false).core.video_conf.capture = false ∧
    (exampleStream false false).core.video_conf.display = false ∧
    directionsSet ((exampleStream false false).render exampleEnvironment
      (exampleContext .SendRecv 5004 .None "192.168.0.10") (.Other 0)).calls =
      [.SendOnly] ∧
    engineStarts ((exampleStream false false).render exampleEnvironment
      (exampleContext .SendRecv 5004 .None "192.168.0.10") (.Other 0)).calls =
      [.video_stream_start_from_io (some 1) { payload := [some { mime_type := "VP8" }] }
        "192.168.0.10" 5004 "192.168.0.10" 5005 0
        { input_type := .MSResourceCamera, input_session := none, input_camera := some 3,
          output_type := .MSResourceDefault, output_session := none }] ∧
    ((exampleStream false false).render exampleEnvironment
      (exampleContext .SendRecv 5004 .None "192.168.0.10") (.Other 0)).getState =
      .Running ∧
    Call.MS2Stream_stop ∉ ((exampleStream false false).render exampleEnvironment
      (exampleContext .SendRecv 5004 .None "192.168.0.10") (.Other 0)).calls := by
  decide

/-! ## Handshake starts, engine stops and reset notifications -/

/-- The handshake starts of a concatenation of traces. -/
theorem zrtpStartCount_append (a b : List Call) :
    zrtpStartCount (a ++ b) = zrtpStartCount a + zrtpStartCount b := by
  simp [zrtpStartCount, List.countP_append]

/-- The engine stops of a concatenation of traces. -/
theorem engineStops_append (a b : List Call) :
    engineStops (a ++ b) = engineStops a ++ engineStops b := by
  simp [engineStops, List.filter_append]

/-- The reset notifications of a concatenation of traces. -/
theorem resetCount_append (a b : List Call) :
    resetCount (a ++ b) = resetCount a + resetCount b := by
  simp [resetCount, List.countP_append]

/-- Every controller has the same setup as itself. -/
theorem SameSetup.refl (s : MS2VideoStream) : s.SameSetup s :=
  ⟨rfl, rfl, rfl, rfl⟩

/-- Having the same setup is transitive. -/
theorem SameSetup.trans {s1 s2 s3 : MS2VideoStream} (h12 : s1.SameSetup s2)
    (h23 : s2.SameSetup s3) : s1.SameSetup s3 :=
  ⟨h23.1.trans h12.1, h23.2.1.trans h12.2.1, h23.2.2.1.trans h12.2.2.1,
    h23.2.2.2.trans h12.2.2.2⟩

/-- The preview shutdown starts no handshake, stops no engine stream, sends no
reset notification and keeps the setup. -/
theorem shutdownPreview_counts (env : Environment) (s : MS2VideoStream) :
    zrtpStartCount (s.shutdownPreview env).2.calls = zrtpStartCount s.calls ∧
    engineStops (s.shutdownPreview env).2.calls = engineStops s.calls ∧
    resetCount (s.shutdownPreview env).2.calls = resetCount s.calls ∧
    s.SameSetup (s.shutdownPreview env).2 := by
  unfold MS2VideoStream.shutdownPreview MS2VideoStream.SameSetup
  cases hp : s.core.previewstream with
  | none => simp
  | some preview =>
    by_cases hr : s.core.video_conf.reuse_preview_source = true <;>
      simp [hr, MS2VideoStream.call, zrtpStartCount_append, engineStops_append,
        resetCount_append, zrtpStartCount, engineStops, resetCount, Call.isZrtpStart,
        Call.isEngineStop, Call.isFirstFrameReset]

/-- The call `stop()` starts no handshake, sends no reset notification, passes
the engine stream it holds to `video_stream_stop`, and keeps the setup. -/
theorem stop_counts (s : MS2VideoStream) :
    zrtpStartCount s.stop.calls = zrtpStartCount s.calls ∧
    engineStops s.stop.calls = engineStops s.calls ++ [.video_stream_stop s.mStream] ∧
    resetCount s.stop.calls = resetCount s.calls ∧
    s.SameSetup s.stop := by
  refine ⟨?_, ?_, ?_, ?_⟩
  · rw [(stop_effect s).1, zrtpStartCount_append]
    simp [zrtpStartCount, Call.isZrtpStart]
  · rw [(stop_effect s).1, engineStops_append]
    simp [engineStops, Call.isEngineStop]
  · rw [(stop_effect s).1, resetCount_append]
    simp [resetCount, Call.isFirstFrameReset]
  · simp [MS2VideoStream.SameSetup, MS2VideoStream.stop, MS2Stream.stop, MS2VideoStream.call,
      MS2VideoStream.setUsedAudioCodec]

/-- The settings of lines 190-207 start no handshake, stop no engine stream,
send no reset notification and keep the setup. -/
theorem applySettings_counts (s : MS2VideoStream) :
    zrtpStartCount s.applySettings.calls = zrtpStartCount s.calls ∧
    engineStops s.applySettings.calls = engineStops s.calls ∧
    resetCount s.applySettings.calls = resetCount s.calls ∧
    s.SameSetup s.applySettings := by
  unfold MS2VideoStream.applySettings MS2VideoStream.SameSetup
  by_cases h1 : s.core.video_conf.preview_vsize_width = 0 <;>
  by_cases h2 : lp_config_get s.core.config.nowebcam_uses_normal_fps 0 = 0 <;>
  cases h3 : s.mNativeWindowId <;>
  cases h4 : s.core.video_window_id <;>
  cases h5 : s.core.preview_window_id <;>
    simp [h1, h2, h3, h4, h5, MS2VideoStream.call, zrtpStartCount_append, engineStops_append,
      resetCount_append, zrtpStartCount, engineStops, resetCount, Call.isZrtpStart,
      Call.isEngineStop, Call.isFirstFrameReset]

/-- Lines 235-242 of `render` start no handshake, stop no engine stream, send no
reset notification and keep the setup. -/
theorem configureStream_counts (s : MS2VideoStream) (ctx : OfferAnswerContext)
    (targetState : CallSessionState) (dir : MediaStreamDir) :
    zrtpStartCount (s.configureStream ctx targetState dir).calls = zrtpStartCount s.calls ∧
    engineStops (s.configureStream ctx targetState dir).calls = engineStops s.calls ∧
    resetCount (s.configureStream ctx targetState dir).calls = resetCount s.calls ∧
    s.SameSetup (s.configureStream ctx targetState dir) := by
  simp [MS2VideoStream.configureStream, MS2VideoStream.SameSetup, MS2VideoStream.call,
    MS2Stream.render, zrtpStartCount_append, engineStops_append, resetCount_append,
    zrtpStartCount, engineStops, resetCount, Call.isZrtpStart, Call.isEngineStop,
    Call.isFirstFrameReset]

/-- The engine start of lines 243-269 starts no handshake, stops no engine
stream, sends no reset notification and keeps the setup. -/
theorem startEngine_counts (env : Environment) (s : MS2VideoStream)
    (vstream : SalStreamDescription) (source : Option Nat) (videoProfile : RtpProfile)
    (usedPt : Int) (rtpAddr rtcpAddr : String) (isMulticast : Bool) (cam : Option Nat) :
    zrtpStartCount (s.startEngine env vstream source videoProfile usedPt rtpAddr rtcpAddr
      isMulticast cam).2.calls = zrtpStartCount s.calls ∧
    engineStops (s.startEngine env vstream source videoProfile usedPt rtpAddr rtcpAddr
      isMulticast cam).2.calls = engineStops s.calls ∧
    resetCount (s.startEngine env vstream source videoProfile usedPt rtpAddr rtcpAddr
      isMulticast cam).2.calls = resetCount s.calls ∧
    s.SameSetup (s.startEngine env vstream source videoProfile usedPt rtpAddr rtcpAddr
      isMulticast cam).2 := by
  unfold MS2VideoStream.startEngine MS2VideoStream.SameSetup
  cases hr : s.core.video_conf.reuse_preview_source <;>
  cases source <;>
  cases hio : lp_config_get s.core.config.rtp_io_enabled false <;>
  cases hsess : env.createRtpIoSession <;>
    simp [hr, hio, hsess, MS2VideoStream.call, zrtpStartCount_append, engineStops_append,
      resetCount_append, zrtpStartCount, engineStops, resetCount, Call.isZrtpStart,
      Call.isEngineStop, Call.isFirstFrameReset]

/-- The ZRTP start of lines 273-286 stops no engine stream, sends no reset
notification and keeps the setup and the engine stream handle. -/
theorem startZrtp_counts (env : Environment) (s : MS2VideoStream)
    (remoteStream : SalStreamDescription) :
    engineStops (s.startZrtp env remoteStream).calls = engineStops s.calls ∧
    resetCount (s.startZrtp env remoteStream).calls = resetCount s.calls ∧
    s.SameSetup (s.startZrtp env remoteStream) := by
  unfold MS2VideoStream.startZrtp MS2VideoStream.SameSetup
  by_cases h0 : s.session.mediaEncryption = .ZRTP <;>
  by_cases h4 : remoteStream.haveZrtpHash = 1 <;>
  cases h2 : s.mainAudioStream with
  | none => simp [h0, h4, h2]
  | some audioStream =>
    cases h3 : audioStream.isEncrypted <;>
      simp [h0, h3, h4, h2, MS2VideoStream.call, engineStops_append, resetCount_append,
        engineStops, resetCount, Call.isEngineStop, Call.isFirstFrameReset]

/-- When the gate of lines 275-278 is open (the media encryption is ZRTP or the
remote description has a peer hash, and the main audio stream exists and is
encrypted), the ZRTP start issues exactly one `video_stream_start_zrtp`, on the
engine stream of the controller, and passes an advertised peer hash on. -/
theorem startZrtp_open (env : Environment) (s : MS2VideoStream)
    (remoteStream : SalStreamDescription) (audioStream : MainAudioStream)
    (hmode : s.session.mediaEncryption = .ZRTP ∨ remoteStream.haveZrtpHash = 1)
    (haudio : s.mainAudioStream = some audioStream)
    (henc : audioStream.isEncrypted = true) :
    zrtpStartCount (s.startZrtp env remoteStream).calls = zrtpStartCount s.calls + 1 ∧
    .video_stream_start_zrtp s.mStream ∈ (s.startZrtp env remoteStream).calls ∧
    (remoteStream.haveZrtpHash = 1 →
      .ms_zrtp_setPeerHelloHash remoteStream.zrtphash ∈
        (s.startZrtp env remoteStream).calls) := by
  unfold MS2VideoStream.startZrtp
  by_cases h4 : remoteStream.haveZrtpHash = 1
  · simp [h4, haudio, henc, MS2VideoStream.call, zrtpStartCount_append, zrtpStartCount,
      Call.isZrtpStart]
  · have h0 : s.session.mediaEncryption = .ZRTP := by
      rcases hmode with h | h
      · exact h
      · exact absurd h h4
    simp [h0, h4, haudio, henc, MS2VideoStream.call, zrtpStartCount_append, zrtpStartCount,
      Call.isZrtpStart]

/-- When the gate of lines 275-278 is closed, the ZRTP start issues no
`video_stream_start_zrtp`. -/
theorem startZrtp_closed (env : Environment) (s : MS2VideoStream)
    (remoteStream : SalStreamDescription)
    (h : ¬((s.session.mediaEncryption = .ZRTP ∨ remoteStream.haveZrtpHash = 1) ∧
      ∃ audioStream, s.mainAudioStream = some audioStream ∧
        audioStream.isEncrypted = true)) :
    zrtpStartCount (s.startZrtp env remoteStream).calls = zrtpStartCount s.calls := by
  unfold MS2VideoStream.startZrtp
  by_cases hmode : s.session.mediaEncryption = .ZRTP ∨ remoteStream.haveZrtpHash = 1
  · cases h2 : s.mainAudioStream with
    | none => simp [hmode]
    | some audioStream =>
      cases h3 : audioStream.isEncrypted
      · simp [hmode, h3]
      · exact absurd ⟨hmode, audioStream, h2, h3⟩ h
  · simp [hmode]

/-- Appending a call that is no handshake start, no engine stop and no reset
notification changes none of the three observations, nor the setup, and keeps
every call of the trace. -/
theorem call_counts (s : MS2VideoStream) (c : Call) (hz : c.isZrtpStart = false)
    (hs : c.isEngineStop = false) (hr : c.isFirstFrameReset = false) :
    zrtpStartCount (s.call c).calls = zrtpStartCount s.calls ∧
    engineStops (s.call c).calls = engineStops s.calls ∧
    resetCount (s.call c).calls = resetCount s.calls ∧
    s.SameSetup (s.call c) ∧
    (∀ c', c' ∈ s.calls → c' ∈ (s.call c).calls) := by
  refine ⟨?_, ?_, ?_, ⟨rfl, rfl, rfl, rfl⟩, ?_⟩
  · simp [MS2VideoStream.call, zrtpStartCount, List.countP_append, hz]
  · simp [MS2VideoStream.call, engineStops, List.filter_append, hs]
  · simp [MS2VideoStream.call, resetCount, List.countP_append, hr]
  · intro c' hc'
    exact List.mem_append_left _ hc'

/-- What lines 271-296 of `render` do to the three observations: no engine stream
is stopped; one reset notification is sent if there is a listener, none
otherwise; one handshake is started, on the engine stream of the controller, if
the gate of lines 275-278 is open, none otherwise; the setup is kept. -/
theorem finishRender_effect (env : Environment) (s : MS2VideoStream)
    (ctx : OfferAnswerContext) (listener : Bool) (source : Option Nat)
    (reusedPreview : Bool) :
    engineStops (s.finishRender env ctx listener source reusedPreview).calls =
      engineStops s.calls ∧
    resetCount (s.finishRender env ctx listener source reusedPreview).calls =
      resetCount s.calls + (if listener = true then 1 else 0) ∧
    s.SameSetup (s.finishRender env ctx listener source reusedPreview) ∧
    (∀ audioStream,
      (s.session.mediaEncryption = .ZRTP ∨ ctx.remoteStreamDescription.haveZrtpHash = 1) →
      s.mainAudioStream = some audioStream → audioStream.isEncrypted = true →
      zrtpStartCount (s.finishRender env ctx listener source reusedPreview).calls =
        zrtpStartCount s.calls + 1 ∧
      .video_stream_start_zrtp s.mStream ∈
        (s.finishRender env ctx listener source reusedPreview).calls ∧
      (ctx.remoteStreamDescription.haveZrtpHash = 1 →
        .ms_zrtp_setPeerHelloHash ctx.remoteStreamDescription.zrtphash ∈
          (s.finishRender env ctx listener source reusedPreview).calls)) ∧
    (¬((s.session.mediaEncryption = .ZRTP ∨ ctx.remoteStreamDescription.haveZrtpHash = 1) ∧
        ∃ audioStream, s.mainAudioStream = some audioStream ∧
          audioStream.isEncrypted = true) →
      zrtpStartCount (s.finishRender env ctx listener source reusedPreview).calls =
        zrtpStartCount s.calls) := by
  unfold MS2VideoStream.finishRender
  dsimp only
  -- the notification of the listener
  generalize hs1 : (if listener = true then s.call .onResetFirstVideoFrameDecoded else s) = s1
  have h1 : zrtpStartCount s1.calls = zrtpStartCount s.calls ∧
      engineStops s1.calls = engineStops s.calls ∧
      resetCount s1.calls = resetCount s.calls + (if listener = true then 1 else 0) ∧
      s.SameSetup s1 ∧ s1.mStream = s.mStream := by
    subst hs1
    cases listener
    · simp [SameSetup.refl]
    · simp [MS2VideoStream.call, MS2VideoStream.SameSetup, zrtpStartCount_append,
        engineStops_append, resetCount_append, zrtpStartCount, engineStops, resetCount,
        Call.isZrtpStart, Call.isEngineStop, Call.isFirstFrameReset]
  clear hs1
  -- the ZRTP start
  have h2 := startZrtp_counts env s1 ctx.remoteStreamDescription
  have h2o := startZrtp_open env s1 ctx.remoteStreamDescription
  have h2c := startZrtp_closed env s1 ctx.remoteStreamDescription
  generalize s1.startZrtp env ctx.remoteStreamDescription = s2 at h2 h2o h2c ⊢
  -- the retransmission setting
  generalize hs3 : (if s2.core.retransmission_on_nack_enabled = true then
    s2.call (.video_stream_enable_retransmission_on_nack s2.mStream true) else s2) = s3
  have h3 : zrtpStartCount s3.calls = zrtpStartCount s2.calls ∧
      engineStops s3.calls = engineStops s2.calls ∧
      resetCount s3.calls = resetCount s2.calls ∧
      s2.SameSetup s3 ∧ (∀ c', c' ∈ s2.calls → c' ∈ s3.calls) := by
    subst hs3
    cases s2.core.retransmission_on_nack_enabled
    · exact ⟨rfl, rfl, rfl, SameSetup.refl _, fun _ h => h⟩
    · exact call_counts s2 _ rfl rfl rfl
  clear hs3
  -- the destruction of a source that was not reused
  have h4 : ∀ s4 : MS2VideoStream,
      (s4 = s3 ∨ ∃ src, s4 = s3.call (.ms_filter_destroy src)) →
      zrtpStartCount s4.calls = zrtpStartCount s3.calls ∧
      engineStops s4.calls = engineStops s3.calls ∧
      resetCount s4.calls = resetCount s3.calls ∧
      s3.SameSetup s4 ∧ (∀ c', c' ∈ s3.calls → c' ∈ s4.calls) := by
    rintro s4 (h | ⟨src, h⟩)
    · subst h
      exact ⟨rfl, rfl, rfl, SameSetup.refl _, fun _ h => h⟩
    · subst h
      exact call_counts s3 _ rfl rfl rfl
  have key : ∀ s4 : MS2VideoStream,
      (s4 = s3 ∨ ∃ src, s4 = s3.call (.ms_filter_destroy src)) →
      engineStops s4.calls = engineStops s.calls ∧
      resetCount s4.calls = resetCount s.calls + (if listener = true then 1 else 0) ∧
      s.SameSetup s4 ∧
      (∀ audioStream,
        (s.session.mediaEncryption = .ZRTP ∨
          ctx.remoteStreamDescription.haveZrtpHash = 1) →
        s.mainAudioStream = some audioStream → audioStream.isEncrypted = true →
        zrtpStartCount s4.calls = zrtpStartCount s.calls + 1 ∧
        .video_stream_start_zrtp s.mStream ∈ s4.calls ∧
        (ctx.remoteStreamDescription.haveZrtpHash = 1 →
          .ms_zrtp_setPeerHelloHash ctx.remoteStreamDescription.zrtphash ∈ s4.calls)) ∧
      (¬((s.session.mediaEncryption = .ZRTP ∨
            ctx.remoteStreamDescription.haveZrtpHash = 1) ∧
          ∃ audioStream, s.mainAudioStream = some audioStream ∧
            audioStream.isEncrypted = true) →
        zrtpStartCount s4.calls = zrtpStartCount s.calls) := by
    intro s4 hs4
    obtain ⟨k1, k2, k3, k4, k5⟩ := h4 s4 hs4
    refine ⟨?_, ?_, ?_, ?_, ?_⟩
    · rw [k2, h3.2.1, h2.1, h1.2.1]
    · rw [k3, h3.2.2.1, h2.2.1, h1.2.2.1]
    · exact SameSetup.trans (SameSetup.trans h1.2.2.2.1 h2.2.2) (SameSetup.trans h3.2.2.2.1 k4)
    · intro audioStream hmode haudio henc
      have hmode1 : s1.session.mediaEncryption = .ZRTP ∨
          ctx.remoteStreamDescription.haveZrtpHash = 1 := by
        rw [h1.2.2.2.1.2.2.1]; exact hmode
      have haudio1 : s1.mainAudioStream = some audioStream := by
        rw [h1.2.2.2.1.2.2.2]; exact haudio
      obtain ⟨o1, o2, o3⟩ := h2o audioStream hmode1 haudio1 henc
      refine ⟨?_, ?_, ?_⟩
      · rw [k1, h3.1, o1, h1.1]
      · rw [h1.2.2.2.2] at o2
        exact k5 _ (h3.2.2.2.2 _ o2)
      · intro hh
        exact k5 _ (h3.2.2.2.2 _ (o3 hh))
    · intro hclosed
      have hclosed1 : ¬((s1.session.mediaEncryption = .ZRTP ∨
            ctx.remoteStreamDescription.haveZrtpHash = 1) ∧
          ∃ audioStream, s1.mainAudioStream = some audioStream ∧
            audioStream.isEncrypted = true) := by
        rw [h1.2.2.2.1.2.2.1, h1.2.2.2.1.2.2.2]; exact hclosed
      rw [k1, h3.1, h2c hclosed1, h1.1]
  split
  next src => exact key _ (Or.inr ⟨src, rfl⟩)
  next => exact key _ (Or.inl rfl)

/-- What lines 234-296 of `render` do to the three observations: no engine stream
is stopped; one reset notification is sent if there is a listener, none
otherwise; one handshake is started, on the engine stream of the controller, if
the gate of lines 275-278 is open, none otherwise; the setup is kept. -/
theorem renderStart_counts (env : Environment) (s : MS2VideoStream)
    (ctx : OfferAnswerContext) (targetState : CallSessionState) (listener : Bool)
    (source : Option Nat) (videoProfile : RtpProfile) (usedPt : Int)
    (rtpAddr rtcpAddr : String) (isMulticast : Bool) (dir : MediaStreamDir) :
    engineStops (s.renderStart env ctx targetState listener source videoProfile usedPt
      rtpAddr rtcpAddr isMulticast dir).calls = engineStops s.calls ∧
    resetCount (s.renderStart env ctx targetState listener source videoProfile usedPt
      rtpAddr rtcpAddr isMulticast dir).calls =
      resetCount s.calls + (if listener = true then 1 else 0) ∧
    s.SameSetup (s.renderStart env ctx targetState listener source videoProfile usedPt
      rtpAddr rtcpAddr isMulticast dir) ∧
    (∀ audioStream,
      (s.session.mediaEncryption = .ZRTP ∨ ctx.remoteStreamDescription.haveZrtpHash = 1) →
      s.mainAudioStream = some audioStream → audioStream.isEncrypted = true →
      zrtpStartCount (s.renderStart env ctx targetState listener source videoProfile usedPt
        rtpAddr rtcpAddr isMulticast dir).calls = zrtpStartCount s.calls + 1 ∧
      .video_stream_start_zrtp s.mStream ∈
        (s.renderStart env ctx targetState listener source videoProfile usedPt
          rtpAddr rtcpAddr isMulticast dir).calls ∧
      (ctx.remoteStreamDescription.haveZrtpHash = 1 →
        .ms_zrtp_setPeerHelloHash ctx.remoteStreamDescription.zrtphash ∈
          (s.renderStart env ctx targetState listener source videoProfile usedPt
            rtpAddr rtcpAddr isMulticast dir).calls)) ∧
    (¬((s.session.mediaEncryption = .ZRTP ∨ ctx.remoteStreamDescription.haveZrtpHash = 1) ∧
        ∃ audioStream, s.mainAudioStream = some audioStream ∧
          audioStream.isEncrypted = true) →
      zrtpStartCount (s.renderStart env ctx targetState listener source videoProfile usedPt
        rtpAddr rtcpAddr isMulticast dir).calls = zrtpStartCount s.calls) := by
  unfold MS2VideoStream.renderStart
  dsimp only
  have hc := configureStream_counts s ctx targetState dir
  have hcm := (configureStream_effect s ctx targetState dir).2.2.2.2.1
  generalize s.configureStream ctx targetState dir = s1 at hc hcm ⊢
  have he := startEngine_counts env s1 ctx.resultStreamDescription source videoProfile
    usedPt rtpAddr rtcpAddr isMulticast (s.getVideoDevice env targetState)
  have hem := (startEngine_frame env s1 ctx.resultStreamDescription source videoProfile
    usedPt rtpAddr rtcpAddr isMulticast (s.getVideoDevice env targetState)).2.2.1
  generalize s1.startEngine env ctx.resultStreamDescription source videoProfile usedPt
    rtpAddr rtcpAddr isMulticast (s.getVideoDevice env targetState) = started at he hem ⊢
  obtain ⟨f1, f2, f3, f4, f5⟩ :=
    finishRender_effect env started.2 ctx listener source started.1
  have hsetup : s.SameSetup started.2 := SameSetup.trans hc.2.2.2 he.2.2.2
  refine ⟨?_, ?_, SameSetup.trans hsetup f3, ?_, ?_⟩
  · rw [f1, he.2.1, hc.2.1]
  · rw [f2, he.2.2.1, hc.2.2.1]
  · intro audioStream hmode haudio henc
    have hmode1 : started.2.session.mediaEncryption = .ZRTP ∨
        ctx.remoteStreamDescription.haveZrtpHash = 1 := by
      rw [hsetup.2.2.1]; exact hmode
    have haudio1 : started.2.mainAudioStream = some audioStream := by
      rw [hsetup.2.2.2]; exact haudio
    obtain ⟨o1, o2, o3⟩ := f4 audioStream hmode1 haudio1 henc
    rw [hem, hcm] at o2
    exact ⟨by rw [o1, he.1, hc.1], o2, o3⟩
  · intro hclosed
    have hclosed1 : ¬((started.2.session.mediaEncryption = .ZRTP ∨
          ctx.remoteStreamDescription.haveZrtpHash = 1) ∧
        ∃ audioStream, started.2.mainAudioStream = some audioStream ∧
          audioStream.isEncrypted = true) := by
      rw [hsetup.2.2.1, hsetup.2.2.2]; exact hclosed
    rw [f5 hclosed1, he.1, hc.1]

/-- The two ways `render` ends. Either it ends in `stop()`, called on a controller
on which no handshake was started and no reset notification sent since the call
began; or it reaches line 234 with `dir` set and ends with lines 234-296, on a
controller of which the same holds and which, when a payload type was selected,
still holds its engine stream and has seen no engine stop. -/
theorem render_cases (env : Environment) (s : MS2VideoStream)
    (ctx : OfferAnswerContext) (targetState : CallSessionState) :
    (∃ s1, s.render env ctx targetState = s1.stop ∧
      zrtpStartCount s1.calls = zrtpStartCount s.calls ∧
      resetCount s1.calls = resetCount s.calls ∧
      s.SameSetup s1) ∨
    (∃ s2 dir,
      s.render env ctx targetState =
        s2.renderStart env ctx targetState s.session.listener (s.shutdownPreview env).1
          (env.makeProfile ctx.resultMediaDescription ctx.resultStreamDescription).1
          (env.makeProfile ctx.resultMediaDescription ctx.resultStreamDescription).2
          ctx.rtpAddr ctx.rtcpAddr (env.ms_is_multicast ctx.rtpAddr) dir ∧
      ¬(ctx.resultStreamDescription.dir = .Inactive ∨
        ctx.resultStreamDescription.rtp_port = 0) ∧
      MS2VideoStream.renderDir (env.ms_is_multicast ctx.rtpAddr)
        ctx.resultStreamDescription s.core.video_conf = some dir ∧
      zrtpStartCount s2.calls = zrtpStartCount s.calls ∧
      resetCount s2.calls = resetCount s.calls ∧
      s.SameSetup s2 ∧
      ((env.makeProfile ctx.resultMediaDescription ctx.resultStreamDescription).2 ≠ -1 →
        engineStops s2.calls = engineStops s.calls ∧ s2.mStream = s.mStream)) := by
  unfold MS2VideoStream.render
  dsimp only
  have hp := shutdownPreview_counts env s
  have hpm := (shutdownPreview_frame env s).2.2.1
  generalize (s.shutdownPreview env).2 = s0 at hp hpm ⊢
  by_cases hactive : ctx.resultStreamDescription.dir = .Inactive ∨
      ctx.resultStreamDescription.rtp_port = 0
  · rw [if_pos hactive]
    exact Or.inl ⟨s0, rfl, hp.1, hp.2.2.1, hp.2.2.2⟩
  · rw [if_neg hactive]
    have h0 : zrtpStartCount
          (if (env.makeProfile ctx.resultMediaDescription ctx.resultStreamDescription).2 = -1
            then s0.stop else s0).calls = zrtpStartCount s.calls ∧
        resetCount
          (if (env.makeProfile ctx.resultMediaDescription ctx.resultStreamDescription).2 = -1
            then s0.stop else s0).calls = resetCount s.calls ∧
        s.SameSetup
          (if (env.makeProfile ctx.resultMediaDescription ctx.resultStreamDescription).2 = -1
            then s0.stop else s0) ∧
        ((env.makeProfile ctx.resultMediaDescription ctx.resultStreamDescription).2 ≠ -1 →
          engineStops
            (if (env.makeProfile ctx.resultMediaDescription
              ctx.resultStreamDescription).2 = -1 then s0.stop else s0).calls =
            engineStops s.calls ∧
          (if (env.makeProfile ctx.resultMediaDescription
            ctx.resultStreamDescription).2 = -1 then s0.stop else s0).mStream =
            s.mStream) := by
      by_cases hpt :
          (env.makeProfile ctx.resultMediaDescription ctx.resultStreamDescription).2 = -1
      · simp only [hpt, if_true]
        exact ⟨by rw [(stop_counts s0).1, hp.1], by rw [(stop_counts s0).2.2.1, hp.2.2.1],
          SameSetup.trans hp.2.2.2 (stop_counts s0).2.2.2, fun h => absurd rfl h⟩
      · simp only [hpt, if_false]
        exact ⟨hp.1, hp.2.2.1, hp.2.2.2, fun _ => ⟨hp.2.1, hpm⟩⟩
    generalize (if (env.makeProfile ctx.resultMediaDescription
      ctx.resultStreamDescription).2 = -1 then s0.stop else s0) = s0' at h0 ⊢
    have h1 : ∀ pt,
        zrtpStartCount ((s0'.setUsedVideoCodec pt).enableVideo true).calls =
          zrtpStartCount s.calls ∧
        resetCount ((s0'.setUsedVideoCodec pt).enableVideo true).calls =
          resetCount s.calls ∧
        s.SameSetup ((s0'.setUsedVideoCodec pt).enableVideo true) ∧
        ((env.makeProfile ctx.resultMediaDescription ctx.resultStreamDescription).2 ≠ -1 →
          engineStops ((s0'.setUsedVideoCodec pt).enableVideo true).calls =
            engineStops s.calls ∧
          ((s0'.setUsedVideoCodec pt).enableVideo true).mStream = s.mStream) :=
      fun pt => h0
    specialize h1 (rtp_profile_get_payload
      (env.makeProfile ctx.resultMediaDescription ctx.resultStreamDescription).1
      (env.makeProfile ctx.resultMediaDescription ctx.resultStreamDescription).2)
    generalize ((s0'.setUsedVideoCodec
      (rtp_profile_get_payload
        (env.makeProfile ctx.resultMediaDescription ctx.resultStreamDescription).1
        (env.makeProfile ctx.resultMediaDescription
          ctx.resultStreamDescription).2)).enableVideo true) = s1 at h1 ⊢
    have ha := applySettings_counts s1
    have ham := (applySettings_frame s1).2.2.1
    generalize s1.applySettings = s2 at ha ham ⊢
    have hsetup : s.SameSetup s2 := SameSetup.trans h1.2.2.1 ha.2.2.2
    rw [hsetup.1]
    cases hdir : MS2VideoStream.renderDir (env.ms_is_multicast ctx.rtpAddr)
        ctx.resultStreamDescription s.core.video_conf with
    | none =>
      exact Or.inl ⟨s2, rfl, by rw [ha.1, h1.1], by rw [ha.2.2.1, h1.2.1], hsetup⟩
    | some dir =>
      refine Or.inr ⟨s2, dir, rfl, hactive, rfl, by rw [ha.1, h1.1],
        by rw [ha.2.2.1, h1.2.1], hsetup, fun hpt => ?_⟩
      exact ⟨by rw [ha.2.1, (h1.2.2.2 hpt).1], by rw [ham, (h1.2.2.2 hpt).2]⟩

/-- Whatever path it takes, `render` keeps the setup. -/
theorem render_setup (env : Environment) (s : MS2VideoStream)
    (ctx : OfferAnswerContext) (targetState : CallSessionState) :
    s.SameSetup (s.render env ctx targetState) := by
  rcases render_cases env s ctx targetState with
    ⟨s1, hr, _, _, hs⟩ | ⟨s2, dir, hr, _, _, _, _, hs, _⟩
  · rw [hr]
    exact SameSetup.trans hs (stop_counts s1).2.2.2
  · rw [hr]
    exact SameSetup.trans hs (renderStart_counts env s2 ctx targetState _ _ _ _ _ _ _ dir).2.2.1

/-- A `render` on a controller that holds an engine stream, given an active
descriptor with a port, that selects a payload type and resolves a direction:
it stops no engine stream and ends Running; it sends one reset notification if
there is a listener and none otherwise; it starts one handshake, on its engine
stream, if the gate of lines 275-278 is open, and none otherwise; the
controller still holds its engine stream afterwards. -/
theorem render_proceeds (env : Environment) (s : MS2VideoStream)
    (ctx : OfferAnswerContext) (targetState : CallSessionState) (dir : MediaStreamDir)
    (hstream : s.mStream ≠ none)
    (hactive : ¬(ctx.resultStreamDescription.dir = .Inactive ∨
      ctx.resultStreamDescription.rtp_port = 0))
    (hpt : (env.makeProfile ctx.resultMediaDescription ctx.resultStreamDescription).2 ≠ -1)
    (hdir : MS2VideoStream.renderDir (env.ms_is_multicast ctx.rtpAddr)
      ctx.resultStreamDescription s.core.video_conf = some dir) :
    (s.render env ctx targetState).getState = .Running ∧
    engineStops (s.render env ctx targetState).calls = engineStops s.calls ∧
    resetCount (s.render env ctx targetState).calls =
      resetCount s.calls + (if s.session.listener = true then 1 else 0) ∧
    (∀ audioStream,
      (s.session.mediaEncryption = .ZRTP ∨ ctx.remoteStreamDescription.haveZrtpHash = 1) →
      s.mainAudioStream = some audioStream → audioStream.isEncrypted = true →
      zrtpStartCount (s.render env ctx targetState).calls = zrtpStartCount s.calls + 1 ∧
      .video_stream_start_zrtp s.mStream ∈ (s.render env ctx targetState).calls ∧
      (ctx.remoteStreamDescription.haveZrtpHash = 1 →
        .ms_zrtp_setPeerHelloHash ctx.remoteStreamDescription.zrtphash ∈
          (s.render env ctx targetState).calls)) ∧
    (¬((s.session.mediaEncryption = .ZRTP ∨ ctx.remoteStreamDescription.haveZrtpHash = 1) ∧
        ∃ audioStream, s.mainAudioStream = some audioStream ∧
          audioStream.isEncrypted = true) →
      zrtpStartCount (s.render env ctx targetState).calls = zrtpStartCount s.calls) ∧
    (s.render env ctx targetState).mStream = s.mStream ∧
    (s.render env ctx targetState).mStream ≠ none := by
  have hwd := render_with_direction env s ctx targetState dir hstream hactive hpt hdir
  have hrun := hwd.2.2.1
  rcases render_cases env s ctx targetState with
    ⟨s1, hr, _, _, _⟩ | ⟨s2, dir', hr, _, _, hz, hrc, hs, hk⟩
  · have hstop := (stop_effect s1).2.1
    rw [← hr] at hstop
    rw [MS2VideoStream.getState, hstop] at hrun
    exact absurd hrun (by decide)
  · obtain ⟨c1, c2, _, c4, c5⟩ := renderStart_counts env s2 ctx targetState
      s.session.listener (s.shutdownPreview env).1
      (env.makeProfile ctx.resultMediaDescription ctx.resultStreamDescription).1
      (env.makeProfile ctx.resultMediaDescription ctx.resultStreamDescription).2
      ctx.rtpAddr ctx.rtcpAddr (env.ms_is_multicast ctx.rtpAddr) dir'
    rw [← hr] at c1 c2 c4 c5
    refine ⟨hrun, ?_, ?_, ?_, ?_, hwd.2.2.2.1, hwd.2.2.2.2⟩
    · rw [c1, (hk hpt).1]
    · rw [c2, hrc]
    · intro audioStream hmode haudio henc
      have hmode2 : s2.session.mediaEncryption = .ZRTP ∨
          ctx.remoteStreamDescription.haveZrtpHash = 1 := by
        rw [hs.2.2.1]; exact hmode
      have haudio2 : s2.mainAudioStream = some audioStream := by
        rw [hs.2.2.2]; exact haudio
      obtain ⟨o1, o2, o3⟩ := c4 audioStream hmode2 haudio2 henc
      rw [(hk hpt).2] at o2
      exact ⟨by rw [o1, hz], o2, o3⟩
    · intro hclosed
      have hclosed2 : ¬((s2.session.mediaEncryption = .ZRTP ∨
            ctx.remoteStreamDescription.haveZrtpHash = 1) ∧
          ∃ audioStream, s2.mainAudioStream = some audioStream ∧
            audioStream.isEncrypted = true) := by
        rw [hs.2.2.1, hs.2.2.2]; exact hclosed
      rw [c5 hclosed2, hz]

/-- On a controller that holds an engine stream: when a payload type is selected
and lines 211-233 end in the last `else` branch (or the descriptor is inactive
or without port), `render` ends in `stop()`. The controller is Stopped, no
direction was set, no engine stream was started, and the engine stream the
controller held was passed to `video_stream_stop`, once. -/
theorem render_without_direction (env : Environment) (s : MS2VideoStream)
    (ctx : OfferAnswerContext) (targetState : CallSessionState)
    (hstream : s.mStream ≠ none)
    (hpt : (env.makeProfile ctx.resultMediaDescription ctx.resultStreamDescription).2 ≠ -1)
    (hdir : MS2VideoStream.renderDir (env.ms_is_multicast ctx.rtpAddr)
      ctx.resultStreamDescription s.core.video_conf = none) :
    (s.render env ctx targetState).getState = .Stopped ∧
    engineStarts (s.render env ctx targetState).calls = engineStarts s.calls ∧
    directionsSet (s.render env ctx targetState).calls = directionsSet s.calls ∧
    ∃ stream, s.mStream = some stream ∧
      engineStops (s.render env ctx targetState).calls =
        engineStops s.calls ++ [.video_stream_stop (some stream)] := by
  obtain ⟨stream, hs⟩ := Option.ne_none_iff_exists'.mp hstream
  unfold MS2VideoStream.render MS2VideoStream.getState
  dsimp only
  have hp := shutdownPreview_frame env s
  have hpc := (shutdownPreview_counts env s).2.1
  generalize (s.shutdownPreview env).2 = s0 at hp hpc ⊢
  by_cases hactive : ctx.resultStreamDescription.dir = .Inactive ∨
      ctx.resultStreamDescription.rtp_port = 0
  · rw [if_pos hactive]
    refine ⟨(stop_effect s0).2.1, by rw [(stop_frame s0).2, hp.2.1],
      by rw [(stop_frame s0).1, hp.1], stream, hs, ?_⟩
    rw [(stop_counts s0).2.1, hpc, hp.2.2.1, hs]
  · rw [if_neg hactive, if_neg hpt]
    have h1 : ∀ pt, directionsSet ((s0.setUsedVideoCodec pt).enableVideo true).calls =
          directionsSet s.calls ∧
        engineStarts ((s0.setUsedVideoCodec pt).enableVideo true).calls =
          engineStarts s.calls ∧
        ((s0.setUsedVideoCodec pt).enableVideo true).core.video_conf =
          s.core.video_conf ∧
        engineStops ((s0.setUsedVideoCodec pt).enableVideo true).calls =
          engineStops s.calls ∧
        ((s0.setUsedVideoCodec pt).enableVideo true).mStream = s.mStream :=
      fun pt => ⟨hp.1, hp.2.1, hp.2.2.2.2.1, hpc, hp.2.2.1⟩
    specialize h1 (rtp_profile_get_payload
      (env.makeProfile ctx.resultMediaDescription ctx.resultStreamDescription).1
      (env.makeProfile ctx.resultMediaDescription ctx.resultStreamDescription).2)
    generalize ((s0.setUsedVideoCodec
      (rtp_profile_get_payload
        (env.makeProfile ctx.resultMediaDescription ctx.resultStreamDescription).1
        (env.makeProfile ctx.resultMediaDescription
          ctx.resultStreamDescription).2)).enableVideo true) = s1 at h1 ⊢
    have ha := applySettings_frame s1
    have hac := (applySettings_counts s1).2.1
    generalize s1.applySettings = s2 at ha hac ⊢
    have hconf : s2.core.video_conf = s.core.video_conf := by rw [ha.2.2.2.2.1, h1.2.2.1]
    rw [hconf, hdir]
    simp only []
    refine ⟨(stop_effect s2).2.1, by rw [(stop_frame s2).2, ha.2.1, h1.2.1],
      by rw [(stop_frame s2).1, ha.1, h1.1], stream, hs, ?_⟩
    rw [(stop_counts s2).2.1, hac, h1.2.2.2.1, ha.2.2.1, h1.2.2.2.2, hs]

/-- The part of C10 that the code fulfils, on a controller that holds an engine
stream and with a selected payload type: for a descriptor whose RTP address is
not a multicast address, with direction SendOnly and capture disabled, or
direction RecvOnly and display disabled, `render` ends in `stop()`: the
controller is Stopped, no engine-start call is issued, and the engine stream the
controller held is stopped once. -/
theorem render_incompatible_stops (env : Environment) (s : MS2VideoStream)
    (ctx : OfferAnswerContext) (targetState : CallSessionState)
    (hstream : s.mStream ≠ none)
    (hpt : (env.makeProfile ctx.resultMediaDescription ctx.resultStreamDescription).2 ≠ -1)
    (hm : env.ms_is_multicast ctx.rtpAddr = false)
    (h : (ctx.resultStreamDescription.dir = .SendOnly ∧ s.core.video_conf.capture = false) ∨
      (ctx.resultStreamDescription.dir = .RecvOnly ∧ s.core.video_conf.display = false)) :
    (s.render env ctx targetState).getState = .Stopped ∧
    engineStarts (s.render env ctx targetState).calls = engineStarts s.calls ∧
    directionsSet (s.render env ctx targetState).calls = directionsSet s.calls ∧
    ∃ stream, s.mStream = some stream ∧
      engineStops (s.render env ctx targetState).calls =
        engineStops s.calls ++ [.video_stream_stop (some stream)] := by
  apply render_without_direction env s ctx targetState hstream hpt
  rcases h with ⟨hd, hc⟩ | ⟨hd, hc⟩ <;> simp [MS2VideoStream.renderDir, hm, hd, hc]

/-- Whatever path it takes, `render` starts a handshake only through the open
gate of lines 275-278, and is then Running at its end. -/
theorem render_zrtp_only_if (env : Environment) (s : MS2VideoStream)
    (ctx : OfferAnswerContext) (targetState : CallSessionState)
    (h : zrtpStartCount (s.render env ctx targetState).calls ≠ zrtpStartCount s.calls) :
    (s.render env ctx targetState).getState = .Running ∧
    (s.session.mediaEncryption = .ZRTP ∨ ctx.remoteStreamDescription.haveZrtpHash = 1) ∧
    ∃ audioStream, s.mainAudioStream = some audioStream ∧
      audioStream.isEncrypted = true := by
  rcases render_cases env s ctx targetState with
    ⟨s1, hr, hz, _, _⟩ | ⟨s2, dir, hr, _, _, hz, _, hs, _⟩
  · rw [hr, (stop_counts s1).1, hz] at h
    exact absurd rfl h
  · have hrun := (renderStart_effect env s2 ctx targetState s.session.listener
      (s.shutdownPreview env).1
      (env.makeProfile ctx.resultMediaDescription ctx.resultStreamDescription).1
      (env.makeProfile ctx.resultMediaDescription ctx.resultStreamDescription).2
      ctx.rtpAddr ctx.rtcpAddr (env.ms_is_multicast ctx.rtpAddr) dir).2.2
    have hc := (renderStart_counts env s2 ctx targetState s.session.listener
      (s.shutdownPreview env).1
      (env.makeProfile ctx.resultMediaDescription ctx.resultStreamDescription).1
      (env.makeProfile ctx.resultMediaDescription ctx.resultStreamDescription).2
      ctx.rtpAddr ctx.rtcpAddr (env.ms_is_multicast ctx.rtpAddr) dir).2.2.2.2
    rw [← hr] at hrun hc
    by_cases hgate : (s.session.mediaEncryption = .ZRTP ∨
        ctx.remoteStreamDescription.haveZrtpHash = 1) ∧
      ∃ audioStream, s.mainAudioStream = some audioStream ∧ audioStream.isEncrypted = true
    · exact ⟨hrun, hgate.1, hgate.2⟩
    · have hgate2 : ¬((s2.session.mediaEncryption = .ZRTP ∨
            ctx.remoteStreamDescription.haveZrtpHash = 1) ∧
          ∃ audioStream, s2.mainAudioStream = some audioStream ∧
            audioStream.isEncrypted = true) := by
        rw [hs.2.2.1, hs.2.2.2]; exact hgate
      rw [hc hgate2, hz] at h
      exact absurd rfl h

/-- What `zrtpStarted` does: on a Running controller (with `VIDEO_ENABLED`) it
starts one handshake, whatever the media encryption and the main audio stream
are; otherwise it does nothing. -/
theorem zrtpStarted_effect (env : Environment) (s : MS2VideoStream) :
    (env.VIDEO_ENABLED = true → s.getState = .Running →
      zrtpStartCount (s.zrtpStarted env).calls = zrtpStartCount s.calls + 1 ∧
      .video_stream_start_zrtp s.mStream ∈ (s.zrtpStarted env).calls) ∧
    (¬(env.VIDEO_ENABLED = true ∧ s.getState = .Running) → s.zrtpStarted env = s) := by
  unfold MS2VideoStream.zrtpStarted
  constructor
  · intro hv hr
    cases hm : s.session.encryptionMandatory <;>
      simp [hv, hr, hm, MS2VideoStream.call, zrtpStartCount_append, zrtpStartCount,
        Call.isZrtpStart]
  · intro h
    by_cases hv : env.VIDEO_ENABLED = true
    · have hr : ¬ s.getState = .Running := fun hr => h ⟨hv, hr⟩
      simp [hv, hr]
    · simp [hv]

/-- Two calls of `stop()` in a row: each passes the value of `mStream` to
`video_stream_stop`, the second one the null handle. -/
theorem stop_stop_effect (s : MS2VideoStream) :
    s.stop.stop.calls = s.calls ++
      [.MS2Stream_stop, .video_stream_stop s.mStream, .MS2Stream_stop,
        .video_stream_stop none] ∧
    s.stop.stop.getState = .Stopped := by
  refine ⟨?_, (stop_effect s.stop).2.1⟩
  rw [(stop_effect s.stop).1, (stop_effect s).1, (stop_effect s).2.2.1]
  simp

/-- The call `stop()` clears the used audio codec of the current parameters and
leaves the used video codec and the video flag as they are. -/
theorem stop_currentParams (s : MS2VideoStream) :
    s.stop.session.currentParams.usedAudioCodec = none ∧
    s.stop.session.currentParams.usedVideoCodec = s.session.currentParams.usedVideoCodec ∧
    s.stop.session.currentParams.videoEnabled = s.session.currentParams.videoEnabled := by
  simp [MS2VideoStream.stop, MS2Stream.stop, MS2VideoStream.call,
    MS2VideoStream.setUsedAudioCodec]

/-- A sequence of renders on a controller that holds an engine stream and has a
listener, each given an active descriptor with a port, a selected payload type
and a resolved direction, sends as many reset notifications as there are
renders, and the controller still holds its engine stream afterwards. -/
theorem renders_resetCount (conf : VideoConf)
    (inputs : List (Environment × OfferAnswerContext × CallSessionState)) :
    ∀ s : MS2VideoStream, s.mStream ≠ none → s.core.video_conf = conf →
    s.session.listener = true →
    (∀ x ∈ inputs,
      ¬(x.2.1.resultStreamDescription.dir = .Inactive ∨
        x.2.1.resultStreamDescription.rtp_port = 0) ∧
      (x.1.makeProfile x.2.1.resultMediaDescription x.2.1.resultStreamDescription).2 ≠ -1 ∧
      MS2VideoStream.renderDir (x.1.ms_is_multicast x.2.1.rtpAddr)
        x.2.1.resultStreamDescription conf ≠ none) →
    resetCount (s.renders inputs).calls = resetCount s.calls + inputs.length ∧
    (s.renders inputs).mStream = s.mStream := by
  induction inputs with
  | nil =>
    intro s _ _ _ _
    simp [MS2VideoStream.renders]
  | cons x rest ih =>
    intro s hstream hconf hl hall
    obtain ⟨env, ctx, targetState⟩ := x
    obtain ⟨hactive, hpt, hdir⟩ := hall (env, ctx, targetState) (List.mem_cons_self _ _)
    obtain ⟨dir, hdir⟩ := Option.ne_none_iff_exists'.mp hdir
    have hsetup := render_setup env s ctx targetState
    have hp := render_proceeds env s ctx targetState dir hstream hactive hpt
      (by rw [hconf]; exact hdir)
    have hone := hp.2.2.1
    have hrest := ih (s.render env ctx targetState) hp.2.2.2.2.2.2
      (by rw [hsetup.1, hconf]) (by rw [hsetup.2.1, hl])
      (fun y hy => hall y (List.mem_cons_of_mem _ hy))
    refine ⟨?_, ?_⟩
    · simp only [MS2VideoStream.renders, hrest.1, hone, hl, if_true, List.length_cons]
      omega
    · simp only [MS2VideoStream.renders, hrest.2, hp.2.2.2.2.2.1]

/-- C11, the failing input: a descriptor with direction SendRecv, port 5004 and a
unicast address for which `makeProfile` leaves `usedPt` at -1, on a prepared
controller with capture and display enabled. After `stop()` (the engine stop of
stream 1) `render` does not return: it records the video flag on the current
parameters, goes on with the null engine stream, issues an engine-start call and
leaves the controller Running. -/
theorem render_without_payload_goes_on :
    (exampleEnvironmentNoPayload.makeProfile
      (exampleContext .SendRecv 5004 .None "192.168.0.10").resultMediaDescription
      (exampleContext .SendRecv 5004 .None "192.168.0.10").resultStreamDescription).2 = -1 ∧
    (exampleStream true true).session.currentParams.videoEnabled = false ∧
    ((exampleStream true true).render exampleEnvironmentNoPayload
      (exampleContext .SendRecv 5004 .None "192.168.0.10")
      (.Other 0)).session.currentParams.videoEnabled = true ∧
    engineStops ((exampleStream true true).render exampleEnvironmentNoPayload
      (exampleContext .SendRecv 5004 .None "192.168.0.10") (.Other 0)).calls =
      [.video_stream_stop (some 1)] ∧
    engineStarts ((exampleStream true true).render exampleEnvironmentNoPayload
      (exampleContext .SendRecv 5004 .None "192.168.0.10") (.Other 0)).calls =
      [.video_stream_start_from_io none { payload := [some { mime_type := "VP8" }] }
        "192.168.0.10" 5004 "192.168.0.10" 5005 (-1)
        { input_type := .MSResourceCamera, input_session := none, input_camera := some 3,
          output_type := .MSResourceDefault, output_session := none }] ∧
    ((exampleStream true true).render exampleEnvironmentNoPayload
      (exampleContext .SendRecv 5004 .None "192.168.0.10") (.Other 0)).getState =
      .Running := by
  decide

/-- C12, the failing input: `stop()` called twice in a row on a prepared controller
that holds engine stream 1. The controller is Stopped, but the second call does
issue `video_stream_stop`, with the null handle. -/
theorem stop_twice_issues_two_engine_stops :
    (exampleStream true true).stop.stop.getState = .Stopped ∧
    (exampleStream true true).stop.calls =
      [.MS2Stream_stop, .video_stream_stop (some 1)] ∧
    (exampleStream true true).stop.stop.calls =
      [.MS2Stream_stop, .video_stream_stop (some 1), .MS2Stream_stop,
        .video_stream_stop none] := by
  decide

/-- C13, the failing input: a `render` that records the negotiated codec VP8,
followed by `stop()`. The current parameters still hold VP8 as the used video
codec: `stop()` clears the used audio codec instead. -/
theorem stop_keeps_used_video_codec :
    ((exampleStream true true).render exampleEnvironment
      (exampleContext .SendRecv 5004 .None "192.168.0.10")
      (.Other 0)).session.currentParams.usedVideoCodec = some { mime_type := "VP8" } ∧
    ((exampleStream true true).render exampleEnvironment
      (exampleContext .SendRecv 5004 .None "192.168.0.10")
      (.Other 0)).stop.session.currentParams.usedVideoCodec = some { mime_type := "VP8" } ∧
    ((exampleStream true true).render exampleEnvironment
      (exampleContext .SendRecv 5004 .None "192.168.0.10")
      (.Other 0)).stop.session.currentParams.usedAudioCodec = none := by
  decide

/-- C14, the claim as stated fails: a session whose media encryption is not ZRTP, a
remote description without peer hash, a main audio stream that is encrypted.
`render` starts the stream and no handshake; `zrtpStarted`, called next, starts
the handshake although the mode is not ZRTP and no peer hash was advertised. -/
theorem zrtpStarted_ignores_mode_and_hash :
    (exampleStreamEncryption (.Other 0)
      (some { mediaStream := 2, isEncrypted := true })).session.mediaEncryption ≠ .ZRTP ∧
    (exampleContextHash 0).remoteStreamDescription.haveZrtpHash ≠ 1 ∧
    ((exampleStreamEncryption (.Other 0)
      (some { mediaStream := 2, isEncrypted := true })).render exampleEnvironment
      (exampleContextHash 0) (.Other 0)).getState = .Running ∧
    zrtpStartCount ((exampleStreamEncryption (.Other 0)
      (some { mediaStream := 2, isEncrypted := true })).render exampleEnvironment
      (exampleContextHash 0) (.Other 0)).calls = 0 ∧
    zrtpStartCount (((exampleStreamEncryption (.Other 0)
      (some { mediaStream := 2, isEncrypted := true })).render exampleEnvironment
      (exampleContextHash 0) (.Other 0)).zrtpStarted exampleEnvironment).calls = 1 := by
  decide

/-- C14, amended: from every state of a video controller, hence at every step of
every sequence of `render()` and `zrtpStarted()` calls, `render` issues a
handshake start only if the controller is Running, and the media encryption is
ZRTP or the remote descriptor advertised a peer hash, and the main audio stream
exists and is encrypted; `zrtpStarted` issues one only if the controller is
Running; and `render` never starts the handshake while the main audio stream
exists and is not encrypted. -/
theorem handshake_start_only_if (env : Environment) (s : MS2VideoStream)
    (ctx : OfferAnswerContext) (targetState : CallSessionState) :
    (zrtpStartCount (s.render env ctx targetState).calls ≠ zrtpStartCount s.calls →
      (s.render env ctx targetState).getState = .Running ∧
      (s.session.mediaEncryption = .ZRTP ∨ ctx.remoteStreamDescription.haveZrtpHash = 1) ∧
      ∃ audioStream, s.mainAudioStream = some audioStream ∧
        audioStream.isEncrypted = true) ∧
    (zrtpStartCount (s.zrtpStarted env).calls ≠ zrtpStartCount s.calls →
      s.getState = .Running ∧ (s.zrtpStarted env).getState = .Running) ∧
    (∀ audioStream, s.mainAudioStream = some audioStream →
      audioStream.isEncrypted = false →
      zrtpStartCount (s.render env ctx targetState).calls = zrtpStartCount s.calls) := by
  refine ⟨render_zrtp_only_if env s ctx targetState, ?_, ?_⟩
  · intro h
    by_cases hrun : env.VIDEO_ENABLED = true ∧ s.getState = .Running
    · refine ⟨hrun.2, ?_⟩
      have hr := hrun.2
      unfold MS2VideoStream.zrtpStarted
      cases hm : s.session.encryptionMandatory <;>
        simp [hrun.1, hr, hm, MS2VideoStream.call] <;>
        simpa [MS2VideoStream.getState] using hr
    · rw [(zrtpStarted_effect env s).2 hrun] at h
      exact absurd rfl h
  · intro audioStream haudio henc
    by_contra h
    obtain ⟨_, _, a, ha, hea⟩ := render_zrtp_only_if env s ctx targetState h
    rw [haudio] at ha
    cases ha
    rw [henc] at hea
    exact absurd hea (by decide)

/-- An instance of C14 as amended: with ZRTP and an advertised peer hash, but a
main audio stream that is not encrypted, `render` starts no handshake. -/
theorem handshake_start_only_if_witness :
    (exampleStreamEncryption .ZRTP
      (some { mediaStream := 2, isEncrypted := false })).mainAudioStream =
      some { mediaStream := 2, isEncrypted := false } ∧
    zrtpStartCount ((exampleStreamEncryption .ZRTP
      (some { mediaStream := 2, isEncrypted := false })).render exampleEnvironment
      (exampleContextHash 1) (.Other 0)).calls = 0 :=
  ⟨rfl,
    (handshake_start_only_if exampleEnvironment
      (exampleStreamEncryption .ZRTP (some { mediaStream := 2, isEncrypted := false }))
      (exampleContextHash 1) (.Other 0)).2.2 { mediaStream := 2, isEncrypted := false }
      rfl rfl⟩

/-- C15, the claim as stated fails: a session with media encryption ZRTP and a
remote description with a peer hash, but no main audio stream. `render` reaches
the engine start and begins no handshake. -/
theorem render_without_audio_starts_no_handshake :
    (exampleStreamEncryption .ZRTP none).session.mediaEncryption = .ZRTP ∧
    (exampleContextHash 1).remoteStreamDescription.haveZrtpHash = 1 ∧
    (exampleStreamEncryption .ZRTP none).mainAudioStream = none ∧
    (engineStarts ((exampleStreamEncryption .ZRTP none).render exampleEnvironment
      (exampleContextHash 1) (.Other 0)).calls).length = 1 ∧
    zrtpStartCount ((exampleStreamEncryption .ZRTP none).render exampleEnvironment
      (exampleContextHash 1) (.Other 0)).calls = 0 := by
  decide

/-- C15, amended: for every `render()` on a controller that holds an engine stream
that reaches the engine start (an active descriptor with a port, a selected
payload type, a resolved direction), if the
media encryption of the session is ZRTP or the remote descriptor advertises a
peer hash, then: when the main audio stream exists and is encrypted, `render`
begins the handshake of the controller, on its engine stream, and passes an
advertised peer hash to the validation; when no main audio stream exists it
begins none. Whatever the validation answers, `render` ends Running, stops no
engine stream and keeps the engine stream it holds. -/
theorem render_begins_handshake (env : Environment) (s : MS2VideoStream)
    (ctx : OfferAnswerContext) (targetState : CallSessionState) (dir : MediaStreamDir)
    (hstream : s.mStream ≠ none)
    (hactive : ¬(ctx.resultStreamDescription.dir = .Inactive ∨
      ctx.resultStreamDescription.rtp_port = 0))
    (hpt : (env.makeProfile ctx.resultMediaDescription ctx.resultStreamDescription).2 ≠ -1)
    (hdir : MS2VideoStream.renderDir (env.ms_is_multicast ctx.rtpAddr)
      ctx.resultStreamDescription s.core.video_conf = some dir)
    (hmode : s.session.mediaEncryption = .ZRTP ∨
      ctx.remoteStreamDescription.haveZrtpHash = 1) :
    (∀ audioStream, s.mainAudioStream = some audioStream →
      audioStream.isEncrypted = true →
      zrtpStartCount (s.render env ctx targetState).calls = zrtpStartCount s.calls + 1 ∧
      .video_stream_start_zrtp s.mStream ∈ (s.render env ctx targetState).calls ∧
      (ctx.remoteStreamDescription.haveZrtpHash = 1 →
        .ms_zrtp_setPeerHelloHash ctx.remoteStreamDescription.zrtphash ∈
          (s.render env ctx targetState).calls)) ∧
    (s.mainAudioStream = none →
      zrtpStartCount (s.render env ctx targetState).calls = zrtpStartCount s.calls) ∧
    (s.render env ctx targetState).getState = .Running ∧
    engineStops (s.render env ctx targetState).calls = engineStops s.calls ∧
    (s.render env ctx targetState).mStream = s.mStream := by
  obtain ⟨p1, p2, _, p4, p5, p6, _⟩ :=
    render_proceeds env s ctx targetState dir hstream hactive hpt hdir
  refine ⟨fun audioStream haudio henc => p4 audioStream hmode haudio henc, ?_, p1, p2, p6⟩
  intro hnone
  apply p5
  rintro ⟨_, a, ha, _⟩
  rw [hnone] at ha
  cases ha

/-- An instance of C15 as amended: ZRTP, an encrypted main audio stream and an
advertised peer hash whose validation fails. The handshake is begun, the
controller is Running and no engine stream was stopped. -/
theorem render_begins_handshake_witness :
    (exampleStreamEncryption .ZRTP
      (some { mediaStream := 2, isEncrypted := true })).mStream ≠ none ∧
    exampleEnvironmentHashMismatch.ms_zrtp_setPeerHelloHash
      (exampleContextHash 1).remoteStreamDescription.zrtphash ≠ 0 ∧
    zrtpStartCount ((exampleStreamEncryption .ZRTP
      (some { mediaStream := 2, isEncrypted := true })).render
      exampleEnvironmentHashMismatch (exampleContextHash 1) (.Other 0)).calls = 1 ∧
    ((exampleStreamEncryption .ZRTP
      (some { mediaStream := 2, isEncrypted := true })).render
      exampleEnvironmentHashMismatch (exampleContextHash 1) (.Other 0)).getState =
      .Running ∧
    engineStops ((exampleStreamEncryption .ZRTP
      (some { mediaStream := 2, isEncrypted := true })).render
      exampleEnvironmentHashMismatch (exampleContextHash 1) (.Other 0)).calls = [] :=
  ⟨by decide, by decide,
    ((render_begins_handshake exampleEnvironmentHashMismatch
      (exampleStreamEncryption .ZRTP (some { mediaStream := 2, isEncrypted := true }))
      (exampleContextHash 1) (.Other 0) .SendRecv (by decide) (by decide) (by decide)
      (by decide) (Or.inl rfl)).1 { mediaStream := 2, isEncrypted := true } rfl rfl).1,
    (render_begins_handshake exampleEnvironmentHashMismatch
      (exampleStreamEncryption .ZRTP (some { mediaStream := 2, isEncrypted := true }))
      (exampleContextHash 1) (.Other 0) .SendRecv (by decide) (by decide) (by decide)
      (by decide) (Or.inl rfl)).2.2.1,
    (render_begins_handshake exampleEnvironmentHashMismatch
      (exampleStreamEncryption .ZRTP (some { mediaStream := 2, isEncrypted := true }))
      (exampleContextHash 1) (.Other 0) .SendRecv (by decide) (by decide) (by decide)
      (by decide) (Or.inl rfl)).2.2.2.1⟩

/-- C16: on a controller with a listener that holds an engine stream, every
`render()` that does not end in `stop()` (an active descriptor with a port, a
selected payload type, a resolved direction) issues the notification
`onResetFirstVideoFrameDecoded` exactly once, whichever start path is taken,
and keeps the engine stream; and n such renders in a row issue exactly n of
them. -/
theorem render_resets_first_frame_once (s : MS2VideoStream)
    (hstream : s.mStream ≠ none) (hl : s.session.listener = true) :
    (∀ env ctx targetState,
      ¬(ctx.resultStreamDescription.dir = .Inactive ∨
        ctx.resultStreamDescription.rtp_port = 0) →
      (env.makeProfile ctx.resultMediaDescription ctx.resultStreamDescription).2 ≠ -1 →
      MS2VideoStream.renderDir (env.ms_is_multicast ctx.rtpAddr)
        ctx.resultStreamDescription s.core.video_conf ≠ none →
      resetCount (s.render env ctx targetState).calls = resetCount s.calls + 1 ∧
      (s.render env ctx targetState).mStream = s.mStream) ∧
    (∀ inputs : List (Environment × OfferAnswerContext × CallSessionState),
      (∀ x ∈ inputs,
        ¬(x.2.1.resultStreamDescription.dir = .Inactive ∨
          x.2.1.resultStreamDescription.rtp_port = 0) ∧
        (x.1.makeProfile x.2.1.resultMediaDescription x.2.1.resultStreamDescription).2
          ≠ -1 ∧
        MS2VideoStream.renderDir (x.1.ms_is_multicast x.2.1.rtpAddr)
          x.2.1.resultStreamDescription s.core.video_conf ≠ none) →
      resetCount (s.renders inputs).calls = resetCount s.calls + inputs.length ∧
      (s.renders inputs).mStream = s.mStream) := by
  constructor
  · intro env ctx targetState hactive hpt hdir
    obtain ⟨dir, hdir⟩ := Option.ne_none_iff_exists'.mp hdir
    have h := render_proceeds env s ctx targetState dir hstream hactive hpt hdir
    refine ⟨?_, h.2.2.2.2.2.1⟩
    rw [h.2.2.1, hl]
    simp
  · intro inputs hall
    exact renders_resetCount s.core.video_conf inputs s hstream rfl hl hall

/-- The scenario of C16: two successful renders in a row on the same controller
issue the reset notification exactly twice. -/
theorem render_resets_first_frame_once_witness :
    (exampleStream true true).mStream ≠ none ∧
    (exampleStream true true).session.listener = true ∧
    resetCount ((exampleStream true true).renders
      [(exampleEnvironment, exampleContext .SendRecv 5004 .None "192.168.0.10", .Other 0),
       (exampleEnvironment, exampleContext .RecvOnly 5004 .None "192.168.0.10",
         .Paused)]).calls = 2 :=
  ⟨by decide, rfl,
    ((render_resets_first_frame_once (exampleStream true true) (by decide) rfl).2
      [(exampleEnvironment, exampleContext .SendRecv 5004 .None "192.168.0.10", .Other 0),
       (exampleEnvironment, exampleContext .RecvOnly 5004 .None "192.168.0.10", .Paused)]
      (by
        intro x hx
        simp only [List.mem_cons, List.mem_singleton, List.not_mem_nil, or_false] at hx
        rcases hx with rfl | rfl <;> decide)).1⟩

end Linphone
